import Mathlib

/-!
Verification development for the SurviveAll survival-simulation engine
(`game_LoopFixed_jobsBroken.js`).  The JavaScript source is shallowly embedded:
JS numbers are modelled as `ℚ` (all quantities the claims touch are produced by
exact decimal/integer arithmetic), 32-bit integer operations as `Nat` arithmetic
mod `2^32`, in-place mutation as explicit state passing, and thrown exceptions
as an explicit error channel.  `Math.random()` (the browser's unseeded global
random source) is modelled as an external oracle stream `List ℚ` that is
consumed one value per call, so that properties about it can be quantified over
the values it may return.  Presentation-only behaviour (DOM construction,
toast popups, localStorage snapshots, human-readable log text) is not part of
any claim; log emission is retained as structured `(severity, tag)` events and
`safetySnapshot`/`toast` are no-ops on the game state, as in the source they
only touch the DOM/localStorage.  Instance uids, produced in the source by
`uid()` from `Math.random`, are modelled by a deterministic counter threaded
through the state (`nextUid`); uids are opaque identity tokens and no claim
compares their values.
-/

namespace SurviveAll

/-- Numbers: 2^32, the modulus for JS 32-bit integer coercions (`>>> 0`, `Math.imul`). -/
def U32 : Nat := 4294967296

/-- JS `Math.max(min, Math.min(max, v))` (the source's `clamp`). -/
def jsClamp (v lo hi : ℚ) : ℚ := max lo (min hi v)

/-- JS `Math.floor` on our rational model. -/
def jsFloor (x : ℚ) : ℤ := ⌊x⌋

/-- JS `Math.ceil`. -/
def jsCeil (x : ℚ) : ℤ := ⌈x⌉

/-- JS `Math.round`: rounds half-way cases up (toward +∞), i.e. `⌊x + 1/2⌋`. -/
def jsRound (x : ℚ) : ℤ := ⌊x + 1/2⌋

/-- FNV-1a single step: `h = Math.imul(h ^ c, 0x01000193)` kept in 32 bits. -/
def fnv1aStep (h c : Nat) : Nat := ((h ^^^ c) * 0x01000193) % U32

/-- Source `hashStringToUint(str)`: FNV-1a 32-bit over the string's char codes
(`charCodeAt`; all ids hashed by the program are ASCII so this is `Char.toNat`). -/
def hashStringToUint (s : String) : Nat :=
  s.data.foldl (fun h c => fnv1aStep h c.toNat) 0x811c9dc5

/-- Source `mulberry32(seed)`: one step of the generator.  The JS body mixes the
updated seed with `Math.imul`, xors and unsigned shifts; all of those coerce to
32 bits, so the whole step is computed in `Nat` mod `2^32`.  Returns the new
seed state and the produced value `out / 2^32 ∈ [0,1)`. -/
def mulberry32Next (seed : Nat) : Nat × ℚ :=
  let s := (seed + 0x6D2B79F5) % U32
  let t := s
  let t := ((t ^^^ (t >>> 15)) * (t ||| 1)) % U32
  let t := t ^^^ ((t + ((t ^^^ (t >>> 7)) * (t ||| 61)) % U32) % U32)
  let out := t ^^^ (t >>> 14)
  (s, (out : ℚ) / (U32 : ℚ))

/-- Source `randInt(rng, min, max)`: inclusive integer in `[min, max]` from one
rng draw `r`: `lo + Math.floor(r * (hi - lo + 1))`. -/
def randInt (r : ℚ) (mn mx : ℤ) : ℤ :=
  let lo := min mn mx
  let hi := max mn mx
  lo + jsFloor (r * ((hi : ℚ) - (lo : ℚ) + 1))

/-- Source `weightedPick(rng, entries)` inner loop: walk the entries subtracting
`max(0, w)` from the roll; first entry driving the roll to `≤ 0` wins, with the
last entry as fallback. -/
def weightedPickLoop (roll : ℚ) : List (String × ℚ) → Option String
  | [] => none
  | (i, w) :: rest =>
    let roll := roll - max 0 w
    if roll ≤ 0 then some i
    else match rest with
      | [] => some i   -- `entries[entries.length - 1].id`
      | _ => weightedPickLoop roll rest

/-- Source `weightedPick(rng, entries)`: total of clamped weights; when the total
is `≤ 0` the first id (or `null`) is returned without consuming a draw; otherwise
one rng value is consumed and the roulette loop runs.  Returns the advanced rng
seed together with the picked id. -/
def weightedPick (seed : Nat) (entries : List (String × ℚ)) : Nat × Option String :=
  let total := entries.foldl (fun a e => a + max 0 e.2) 0
  if total ≤ 0 then (seed, entries.head?.map (·.1))
  else
    let (seed, r) := mulberry32Next seed
    (seed, weightedPickLoop (r * total) entries)

/-! ## Reference data (embedded fallback catalogs)

The claims all run against the embedded `FALLBACK_DATA` catalogs plus the
`loadData` v0.2 injections (water containers and the `gather_water` / `explore`
jobs; the `water_dirty` injection is skipped because the fallback items already
contain that id, so the fallback definition with `thirst: 12` is the live one).
Presentation-only fields (names, descriptions, `sources`, `bg`, `rarity`) and
the `med` block (read by no modelled code path; `revive_serum` is matched by id)
are omitted. -/

structure FoodProps where
  hunger : ℚ
  morale : ℚ := 0
  quality : String := "low"
  raw : Bool := false
  deriving Repr, DecidableEq

structure WaterProps where
  thirst : ℚ
  morale : ℚ := 0
  dirty : Bool := false
  deriving Repr, DecidableEq

structure ToolProps where
  tag : String
  tier : ℤ
  durabilityMax : ℚ
  power : ℚ
  deriving Repr, DecidableEq

structure ArmorProps where
  tier : ℤ
  durabilityMax : ℚ
  protection : ℚ
  deriving Repr, DecidableEq

structure ContainerProps where
  waterUnits : ℚ
  gatherSeconds : ℚ
  deriving Repr, DecidableEq

structure ItemDef where
  id : String
  category : String
  stackSize : Nat
  equipSlot : Option String := none
  food : Option FoodProps := none
  water : Option WaterProps := none
  tool : Option ToolProps := none
  armor : Option ArmorProps := none
  container : Option ContainerProps := none
  deriving Repr, DecidableEq

/-- Items catalog: `FALLBACK_DATA.items`, the recipe-registered `cordage_item`,
and the `loadData` container injections. -/
def allItems : List ItemDef := [
  { id := "stick", category := "resource", stackSize := 50 },
  { id := "stone", category := "resource", stackSize := 50 },
  { id := "fiber", category := "resource", stackSize := 50 },
  { id := "scrap_metal", category := "resource", stackSize := 50 },
  { id := "wiring", category := "resource", stackSize := 50 },
  { id := "ration_basic", category := "food", stackSize := 20,
    food := some { hunger := 10, morale := -2, quality := "low" } },
  { id := "water_clean", category := "water", stackSize := 20,
    water := some { thirst := 18, morale := 0 } },
  { id := "water_dirty", category := "water", stackSize := 20,
    water := some { thirst := 12, morale := -2, dirty := true } },
  { id := "meat_raw", category := "food", stackSize := 20,
    food := some { hunger := 8, morale := -1, quality := "low", raw := true } },
  { id := "fish_raw", category := "food", stackSize := 20,
    food := some { hunger := 7, morale := -1, quality := "low", raw := true } },
  { id := "meal_hearty", category := "food", stackSize := 10,
    food := some { hunger := 28, morale := 10, quality := "high" } },
  { id := "bandage", category := "medical", stackSize := 10 },
  { id := "antidote", category := "medical", stackSize := 5 },
  { id := "revive_serum", category := "medical", stackSize := 3 },
  { id := "knife_pocket", category := "tool", stackSize := 1, equipSlot := some "mainHand",
    tool := some { tag := "cutting", tier := 0, durabilityMax := 60, power := 1 } },
  { id := "spear_fishing", category := "tool", stackSize := 1, equipSlot := some "mainHand",
    tool := some { tag := "fishing", tier := 1, durabilityMax := 70, power := 2 } },
  { id := "trap_simple", category := "tool", stackSize := 1, equipSlot := some "utility",
    tool := some { tag := "trap", tier := 1, durabilityMax := 40, power := 1 } },
  { id := "hatchet_stone", category := "tool", stackSize := 1, equipSlot := some "mainHand",
    tool := some { tag := "chopping", tier := 1, durabilityMax := 55, power := 2 } },
  { id := "clothes_basic", category := "armor", stackSize := 1, equipSlot := some "body",
    armor := some { tier := 0, durabilityMax := 80, protection := 1/20 } },
  { id := "boots_scrap", category := "armor", stackSize := 1, equipSlot := some "legs",
    armor := some { tier := 1, durabilityMax := 90, protection := 2/25 } },
  { id := "cordage_item", category := "material", stackSize := 30 },
  { id := "bottle_empty", category := "container", stackSize := 20,
    container := some { waterUnits := 1, gatherSeconds := 30 } },
  { id := "milk_jug_empty", category := "container", stackSize := 10,
    container := some { waterUnits := 5, gatherSeconds := 60 } },
  { id := "bucket_empty", category := "container", stackSize := 5,
    container := some { waterUnits := 10, gatherSeconds := 120 } }]

/-- Lookup in the item index (`idx.itemsById`). -/
def itemsById (id : String) : Option ItemDef := allItems.find? (fun d => d.id = id)

/-! ## Inventory (shared storage / pockets) -/

structure Stack where
  itemId : String
  qty : Nat
  isRationAllowed : Bool := false
  deriving Repr, DecidableEq

structure Instance where
  uid : Nat
  itemId : String
  durability : Option ℚ
  deriving Repr, DecidableEq

/-- Shared RV storage (`state.rv.storage`). -/
structure RvStorage where
  capacity : Nat
  rationPrefs : List (String × Bool) := []
  stackList : List Stack := []
  instances : List Instance := []
  deriving Repr, DecidableEq

/-- Per-character pockets. -/
structure Pockets where
  capacity : Nat
  stackList : List Stack := []
  instances : List Instance := []
  deriving Repr, DecidableEq

/-- Association-list lookup used for the keyed maps in the state
(`discoveredTiles`, `rationPrefs`, queue maps, station levels). -/
def alist.lookup {α : Type} (l : List (String × α)) (k : String) : Option α :=
  (l.find? (fun e => e.1 = k)).map (·.2)

/-- Association-list insert/overwrite for the keyed maps in the state. -/
def alist.insert {α : Type} (l : List (String × α)) (k : String) (v : α) :
    List (String × α) :=
  if (l.find? (fun e => e.1 = k)).isSome then
    l.map (fun e => if e.1 = k then (k, v) else e)
  else l ++ [(k, v)]

/-- Outcome record `{ ok, reason }` returned by the fallible operations. -/
structure JsRes where
  ok : Bool
  reason : String := ""
  deriving Repr, DecidableEq

/-- Source `countStorageUsed`: stack quantities plus instance count. -/
def countStorageUsed (s : RvStorage) : Nat :=
  (s.stackList.foldl (fun a st => a + st.qty) 0) + s.instances.length

/-- Source `getStack`: first stack with the given item id. -/
def getStack (stackList : List Stack) (itemId : String) : Option Stack :=
  stackList.find? (fun s => s.itemId = itemId)

/-- Mutation of the stack object returned by `getStack`: updates the first
stack with the given item id, leaving any later duplicates untouched. -/
def updateFirstStack : List Stack → String → (Stack → Stack) → List Stack
  | [], _, _ => []
  | s :: rest, itemId, f =>
    if s.itemId = itemId then f s :: rest
    else s :: updateFirstStack rest itemId f

/-- Source `makeInstance(itemDef)` with the uid counter threaded instead of the
random `uid()` string. -/
def makeInstance (ctr : Nat) (def_ : ItemDef) : Nat × Instance :=
  let durability : Option ℚ :=
    match def_.armor with
    | some a => some a.durabilityMax
    | none => match def_.tool with
      | some t => some t.durabilityMax
      | none => none
  (ctr + 1, { uid := ctr, itemId := def_.id, durability := durability })

/-- Makes `qty` fresh instances (the `for (let i = 0; i < qty; i++)` push loop). -/
def makeInstances (ctr : Nat) (def_ : ItemDef) : Nat → Nat × List Instance
  | 0 => (ctr, [])
  | n + 1 =>
    let (ctr, inst) := makeInstance ctr def_
    let (ctr, rest) := makeInstances ctr def_ n
    (ctr, inst :: rest)

/-- The find-or-create-then-`st.qty += qty` block of `addItemToStorage` for
stackable items, including the new-stack ration-preference initialisation. -/
def addStackQty (s : RvStorage) (def_ : ItemDef) (itemId : String) (qty : Nat)
    (rationAllowed : Option Bool) : RvStorage :=
  match getStack s.stackList itemId with
  | some _ =>
    let sl := updateFirstStack s.stackList itemId
      (fun st => { st with qty := st.qty + qty })
    { s with stackList := sl }
  | none =>
    let ration : Bool :=
      if def_.category = "food" then
        match rationAllowed with
        | some b => b
        | none => (alist.lookup s.rationPrefs itemId).getD false
      else false
    let prefs :=
      if def_.category = "food" then
        match rationAllowed with
        | some b => alist.insert s.rationPrefs itemId b
        | none => s.rationPrefs
      else s.rationPrefs
    let newStack : Stack := { itemId := itemId, qty := qty, isRationAllowed := ration }
    { s with rationPrefs := prefs, stackList := s.stackList ++ [newStack] }

/-- The trailing block of `addItemToStorage` that persists an explicitly
provided ration preference onto the stack and the preference map. -/
def persistRationPref (s : RvStorage) (def_ : ItemDef) (itemId : String)
    (rationAllowed : Option Bool) : RvStorage :=
  if def_.category = "food" then
    match rationAllowed with
    | some b =>
      let sl := updateFirstStack s.stackList itemId
        (fun st => { st with isRationAllowed := b })
      { s with rationPrefs := alist.insert s.rationPrefs itemId b, stackList := sl }
    | none => s
  else s

/-- Source `addItemToStorage(state, loadedData, itemId, qty, opts)`.  The state
here is the storage plus the uid counter; `rationAllowed` is `opts.rationAllowed`
(absent = `null`).  Unknown items and over-capacity adds are rejected before any
mutation. -/
def addItemToStorage (s : RvStorage) (ctr : Nat) (itemId : String) (qty : Nat)
    (rationAllowed : Option Bool := none) : RvStorage × Nat × JsRes :=
  match itemsById itemId with
  | none => (s, ctr, { ok := false, reason := "unknown item" })
  | some def_ =>
    let used := countStorageUsed s
    let cap := s.capacity
    -- `const unitNeed = def.stackSize === 1 ? qty : qty;`
    let unitNeed := qty
    if used + unitNeed > cap then
      (s, ctr, { ok := false, reason := "storage full" })
    else if def_.stackSize = 1 then
      let (ctr, insts) := makeInstances ctr def_ qty
      ({ s with instances := s.instances ++ insts }, ctr, { ok := true })
    else
      let s := addStackQty s def_ itemId qty rationAllowed
      let s := persistRationPref s def_ itemId rationAllowed
      (s, ctr, { ok := true })

/-- Recursive core of the backwards splice loop: removing from the end means
later elements are removed with priority, so the tail is processed with the
full budget first and the head is removed only when budget remains. -/
def removeInstancesGo (itemId : String) : Nat → List Instance → List Instance × Nat
  | _, [] => ([], 0)
  | 0, l => (l, 0)
  | n + 1, i :: rest =>
    let (rest2, k) := removeInstancesGo itemId (n + 1) rest
    if k < n + 1 ∧ i.itemId = itemId then (rest2, k + 1) else (i :: rest2, k)

/-- Removes up to `qty` instances with the given item id scanning from the end
of the list (the source's backwards splice loop); returns the remaining list
and how many were removed. -/
def removeInstancesFromEnd (itemId : String) (qty : Nat) (insts : List Instance) :
    List Instance × Nat :=
  removeInstancesGo itemId qty insts

/-- Source `removeItemFromStorage`: for instance items removes (up to) `qty`
matching instances from the end, succeeding only when the full count was found
(a partial removal persists even when it returns `false`); for stackList subtracts
only when the stack holds enough, filtering out emptied stackList. -/
def removeItemFromStorage (s : RvStorage) (itemId : String) (qty : Nat) :
    RvStorage × Bool :=
  match itemsById itemId with
  | none => (s, false)
  | some def_ =>
    if def_.stackSize = 1 then
      let (insts, removed) := removeInstancesFromEnd itemId qty s.instances
      ({ s with instances := insts }, removed = qty)
    else
      match getStack s.stackList itemId with
      | none => (s, false)
      | some st =>
        if st.qty < qty then (s, false)
        else
          let stackList := updateFirstStack s.stackList itemId
            (fun x => { x with qty := x.qty - qty })
          let stackList := if st.qty - qty = 0 then stackList.filter (fun x => 0 < x.qty)
                        else stackList
          ({ s with stackList := stackList }, true)

/-- Source `hasItemInStorage`. -/
def hasItemInStorage (s : RvStorage) (itemId : String) (qty : Nat) : Bool :=
  match itemsById itemId with
  | none => false
  | some def_ =>
    if def_.stackSize = 1 then
      qty ≤ (s.instances.filter (fun i => i.itemId = itemId)).length
    else
      qty ≤ ((getStack s.stackList itemId).map (·.qty)).getD 0

/-- Source `countPocketsUsed`. -/
def countPocketsUsed (p : Pockets) : Nat :=
  (p.stackList.foldl (fun a st => a + st.qty) 0) + p.instances.length

/-- Source `addItemToPockets`: same unit model as RV storage, but the capacity
check is guarded by `cap > 0` (a zero capacity is treated as unlimited). -/
def addItemToPockets (p : Pockets) (ctr : Nat) (itemId : String) (qty : Nat) :
    Pockets × Nat × JsRes :=
  match itemsById itemId with
  | none => (p, ctr, { ok := false, reason := "unknown item" })
  | some def_ =>
    let used := countPocketsUsed p
    let cap := p.capacity
    if 0 < cap ∧ used + qty > cap then
      (p, ctr, { ok := false, reason := "pockets full" })
    else if def_.stackSize = 1 then
      let (ctr, insts) := makeInstances ctr def_ qty
      ({ p with instances := p.instances ++ insts }, ctr, { ok := true })
    else
      match getStack p.stackList itemId with
      | some _ =>
        let sl := updateFirstStack p.stackList itemId
          (fun st => { st with qty := st.qty + qty })
        ({ p with stackList := sl }, ctr, { ok := true })
      | none =>
        ({ p with stackList := p.stackList ++ [{ itemId := itemId, qty := qty }] },
         ctr, { ok := true })

/-- Source `removeItemFromPockets` (same shape as the storage remove). -/
def removeItemFromPockets (p : Pockets) (itemId : String) (qty : Nat) :
    Pockets × Bool :=
  match itemsById itemId with
  | none => (p, false)
  | some def_ =>
    if def_.stackSize = 1 then
      let (insts, removed) := removeInstancesFromEnd itemId qty p.instances
      ({ p with instances := insts }, removed = qty)
    else
      match getStack p.stackList itemId with
      | none => (p, false)
      | some st =>
        if st.qty < qty then (p, false)
        else
          let stackList := updateFirstStack p.stackList itemId
            (fun x => { x with qty := x.qty - qty })
          let stackList := if st.qty - qty = 0 then stackList.filter (fun x => 0 < x.qty)
                        else stackList
          ({ p with stackList := stackList }, true)

/-! ## Characters, conditions, game state -/

/-- Skill keys appearing in `stats`/`xp`.  The source also looks up `"Wits"` in
the explore branch; neither `stats` nor `xp` ever contain that key, so both
lookups yield `undefined ?? 0` — modelled where it occurs as the constant 0. -/
inductive Skill
  | wilderness | scavenge | mechanics | cooking | medical | grit
  deriving Repr, DecidableEq

/-- Skill-keyed record used for both `char.stats` (levels) and `char.xp`. -/
structure SkillMap where
  wilderness : Nat := 0
  scavenge : Nat := 0
  mechanics : Nat := 0
  cooking : Nat := 0
  medical : Nat := 0
  grit : Nat := 0
  deriving Repr, DecidableEq

def SkillMap.get (m : SkillMap) : Skill → Nat
  | .wilderness => m.wilderness
  | .scavenge => m.scavenge
  | .mechanics => m.mechanics
  | .cooking => m.cooking
  | .medical => m.medical
  | .grit => m.grit

def SkillMap.set (m : SkillMap) : Skill → Nat → SkillMap
  | .wilderness, v => { m with wilderness := v }
  | .scavenge, v => { m with scavenge := v }
  | .mechanics, v => { m with mechanics := v }
  | .cooking, v => { m with cooking := v }
  | .medical, v => { m with medical := v }
  | .grit, v => { m with grit := v }

structure Needs where
  hunger : ℚ := 80
  thirst : ℚ := 80
  morale : ℚ := 70
  health : ℚ := 100
  deriving Repr, DecidableEq

/-- Timed morale modifier; the display-only `name`/`note` fields are omitted. -/
structure Moodlet where
  id : String
  endsAt : ℚ
  moraleDelta : ℚ
  deriving Repr, DecidableEq

structure SicknessCond where
  id : String
  endsAt : ℚ
  severity : String := "normal"
  deriving Repr, DecidableEq

/-- Injury condition.  `endsAt` is `Option ℚ` because `applyInjury` computes
`t + durationMs`, which is the non-finite `NaN` when no duration is passed;
`none` stands for that non-finite value (every comparison against it is false). -/
structure InjuryCond where
  id : String
  endsAt : Option ℚ
  severity : String
  deriving Repr, DecidableEq

structure Conditions where
  sickness : Option SicknessCond := none
  injury : Option InjuryCond := none
  downed : Bool := false
  deriving Repr, DecidableEq

/-- Equipment slots hold the uid of an instance in the character's pockets. -/
structure Equipment where
  mainHand : Option Nat := none
  offHand : Option Nat := none
  body : Option Nat := none
  legs : Option Nat := none
  utility : Option Nat := none
  deriving Repr, DecidableEq

structure Character where
  id : String
  isPlayer : Bool := false
  stats : SkillMap
  xp : SkillMap := {}
  needs : Needs := {}
  moodlets : List Moodlet := []
  conditions : Conditions := {}
  idleBehavior : String := "rest"
  pockets : Pockets
  equipment : Equipment := {}
  deriving Repr, DecidableEq

/-- Structured log entry: severity tag plus a short symbolic tag standing for
the human-readable message text. -/
structure LogEvent where
  sev : String
  tag : String
  deriving Repr, DecidableEq

/-- Per-entry metadata attached by the v0.2 special job flows
(`meta: { special: "gather_water", ... }` / `{ special: "explore", ... }`). -/
inductive JobMeta
  | gatherWater (containerItemId waterItemId : String) (waterQty : ℚ)
  | explore (actionJobId : Option String) (direction : String)
      (rationsConsumed : List (String × Nat))
  deriving Repr, DecidableEq

structure JobEntry where
  id : String
  jobId : String
  pace : String
  createdAt : ℚ
  startAt : Option ℚ
  durationMs : ℚ
  toolOk : Bool
  tileId : Option String
  meta : Option JobMeta := none
  completed : Bool := false
  deriving Repr, DecidableEq

/-- Craft queue entry as built by `startCraft`.  Note the source's `startCraft`
does NOT record an `inputs` field on the entry (the `inputs:` line sits,
misplaced, in `startJobForChar`), so `cancelCraftEntry`'s
`entry.inputs || recipe?.inputs || []` always falls through to the recipe. -/
structure CraftEntry where
  id : String
  recipeId : String
  createdAt : ℚ
  startAt : Option ℚ
  durationMs : ℚ
  completed : Bool := false
  deriving Repr, DecidableEq

/-- Discovered tile.  `poiIds` (always empty) and the encounter's requirement
payload are presentation-only and omitted; the encounter is kept as the
template id of the recruitable NPC. -/
structure Tile where
  tileId : String
  biomeId : Option String
  createdAt : ℚ
  tutorialOverlay : Bool := false
  encounter : Option String := none
  deriving Repr, DecidableEq

structure MetaState where
  createdAt : ℚ
  lastSimAt : ℚ
  timeOffsetMs : ℚ := 0
  tutorialDone : Bool := false
  firstTileId : Option String := none
  lastTileId : Option String := none
  deriving Repr, DecidableEq

/-- Whole game state (`state`).  `rngSeed` mirrors `state.rngSeed`, which is
read by `resolveJobCompletion`'s seed derivation but assigned nowhere in the
source, so it is `none` (JS `undefined`, printing as `"undefined"`) in every
reachable state.  `nextUid` is the deterministic uid counter. -/
structure GState where
  meta : MetaState
  discoveredTiles : List (String × Tile) := []
  stations : List (String × Nat)
  storage : RvStorage
  members : List Character
  maxCrew : Nat := 2
  jobsByCharId : List (String × List JobEntry) := []
  craftsByStationId : List (String × List CraftEntry) := []
  log : List LogEvent := []
  rngSeed : Option String := none
  nextUid : Nat := 0
  deriving Repr, DecidableEq

/-! Config constants from `FALLBACK_DATA.config` (the fallback `config.json`). -/

def cfgWorldSeed : String := "WORLD_V01"
def cfgTilePrecision : Nat := 7
def cfgMaxLogEntries : Nat := 600
def cfgHungerPerMin : ℚ := 1/4
def cfgThirstPerMin : ℚ := 7/20
def cfgStrenuousDrainMultiplier : ℚ := 2
def cfgAutoConsumeThreshold : ℚ := 50
def cfgIdleMaxCyclesPerSim : Nat := 20
/-- `cfg?.xp?.base ?? 100` (the fallback config has no `xp` block). -/
def cfgXpBase : ℚ := 100
/-- `cfg?.xp?.growth ?? 1.35`. -/
def cfgXpGrowth : ℚ := 27/20

/-- Source `gameNow(state)`: real time plus the admin offset.  The ambient
`Date.now()` is passed explicitly as `now`. -/
def gameNow (st : GState) (now : ℚ) : ℚ := now + st.meta.timeOffsetMs

/-- Source `pushLog`: append then trim the front to `maxLogEntries`. -/
def pushLog (st : GState) (sev tag : String) : GState :=
  let l := st.log ++ [⟨sev, tag⟩]
  let l := if cfgMaxLogEntries < l.length then l.drop (l.length - cfgMaxLogEntries) else l
  { st with log := l }

/-- Source `effectiveSkill`: base stat plus one point per 100 XP. -/
def effectiveSkill (c : Character) (s : Skill) : Nat :=
  c.stats.get s + c.xp.get s / 100

/-- Source `currentMoraleModifier`. -/
def currentMoraleModifier (c : Character) : ℚ :=
  let d := c.moodlets.foldl (fun a m => a + m.moraleDelta) 0
  let d := if c.conditions.sickness.isSome then d - 10 else d
  let d := if (c.conditions.injury.map (·.severity)).getD "" = "minor" then d - 5 else d
  let d := if (c.conditions.injury.map (·.severity)).getD "" = "major" then d - 15 else d
  if c.conditions.downed then d - 50 else d

/-- Source `applyMoodlet`: replace any moodlet with the same id, then push. -/
def applyMoodlet (c : Character) (m : Moodlet) : Character :=
  { c with moodlets := (c.moodlets.filter (fun x => x.id ≠ m.id)) ++ [m] }

/-- Source `getEquippedToolDef(char, loadedData, toolTag)`: the main-hand
instance's item definition, provided it is a tool and (when a tag is requested)
carries that tag. -/
def getEquippedToolDef (c : Character) (toolTag : Option String) :
    Option (ItemDef × Instance) :=
  match c.equipment.mainHand with
  | none => none
  | some u =>
    match c.pockets.instances.find? (fun i => i.uid = u) with
    | none => none
    | some inst =>
      match itemsById inst.itemId with
      | none => none
      | some def_ =>
        match def_.tool with
        | none => none
        | some t =>
          match toolTag with
          | some tag => if t.tag = tag then some (def_, inst) else none
          | none => some (def_, inst)

/-- Source `getTotalProtection`: sum of equipped body/leg armor protection,
clamped to `[0, 0.7]`. -/
def getTotalProtection (c : Character) : ℚ :=
  let slotProt : Option Nat → ℚ := fun slot =>
    match slot with
    | none => 0
    | some u =>
      match c.pockets.instances.find? (fun i => i.uid = u) with
      | none => 0
      | some inst =>
        match (itemsById inst.itemId).bind (·.armor) with
        | some a => a.protection
        | none => 0
  jsClamp (slotProt c.equipment.body + slotProt c.equipment.legs) 0 (7/10)

/-- Source `expireTimedEffects`: drop moodlets whose `endsAt` has passed, and
clear sickness/injury whose `endsAt ≤ t`.  An injury whose `endsAt` is the
non-finite `NaN` (`none` here) never satisfies the comparison and is kept. -/
def expireTimedEffects (st : GState) (c : Character) (now : ℚ) :
    GState × Character :=
  let t := gameNow st now
  let c := { c with moodlets := c.moodlets.filter (fun m => t < m.endsAt) }
  let (st, c) :=
    match c.conditions.sickness with
    | some s =>
      if s.endsAt ≤ t then
        (pushLog st "good" "recovered.sickness",
         { c with conditions := { c.conditions with sickness := none } })
      else (st, c)
    | none => (st, c)
  match c.conditions.injury with
  | some i =>
    match i.endsAt with
    | some e =>
      if e ≤ t then
        (pushLog st "good" "recovered.injury",
         { c with conditions := { c.conditions with injury := none } })
      else (st, c)
    | none => (st, c)   -- `NaN <= t` is false
  | none => (st, c)

/-- Errors thrown by the embedded JS. -/
inductive JsError
  | referenceError (name : String)
  | typeError (msg : String)
  deriving Repr, DecidableEq

deriving instance DecidableEq for Except

/-- Source `applySickness`. -/
def applySickness (st : GState) (c : Character) (now : ℚ) (name : String)
    (durationMs : ℚ) : GState × Character :=
  let t := gameNow st now
  let sick : SicknessCond :=
    { id := "s_" ++ toString (hashStringToUint name), endsAt := t + durationMs }
  let c := { c with conditions := { c.conditions with sickness := some sick } }
  (pushLog st "bad" "got.sick", c)

/-- Source `applyInjury(state, loadedData, char, severity, name, durationMs)`.
The id is `` `i_${hashStringToUint(name)}` ``; when `name` is absent (the
explore branch's `applyInjury(..., "minor")` call) `hashStringToUint(undefined)`
throws a TypeError on `str.length` before the injury is assigned.  When a name
is given but no duration, `endsAt = t + undefined` is `NaN` (`none`). -/
def applyInjury (st : GState) (c : Character) (now : ℚ) (severity : String)
    (name : Option String) (durationMs : Option ℚ) :
    Except JsError (GState × Character) :=
  match name with
  | none => .error (.typeError "undefined has no length")
  | some nm =>
    let t := gameNow st now
    let inj : InjuryCond :=
      { id := "i_" ++ toString (hashStringToUint nm),
        endsAt := durationMs.map (fun d => t + d), severity := severity }
    let c := { c with conditions := { c.conditions with injury := some inj } }
    .ok (pushLog st "bad" "suffered.injury", c)

/-- Source `downCharacter`: set downed, then auto-revive if a Revive Serum is in
storage (consuming it, with a morale-penalising moodlet and health reset). -/
def downCharacter (st : GState) (c : Character) (now : ℚ) : GState × Character :=
  let c := { c with conditions := { c.conditions with downed := true } }
  let st := pushLog st "bad" "downed"
  if hasItemInStorage st.storage "revive_serum" 1 then
    let (storage, _) := removeItemFromStorage st.storage "revive_serum" 1
    let st := { st with storage := storage }
    let c := { c with conditions := { c.conditions with downed := false } }
    let m : Moodlet :=
      { id := "m_revived", endsAt := gameNow st now + 6 * 60 * 60 * 1000, moraleDelta := -12 }
    let c := applyMoodlet c m
    let c := { c with needs := { c.needs with health := 60 } }
    (pushLog st "good" "revive.serum", c)
  else (st, c)

/-! ## Auto-consumption

`Math.random()` draws are taken from the oracle stream (`headD 0` / `tail`). -/

/-- Takes one `Math.random()` value from the oracle stream. -/
def oracleDraw (o : List ℚ) : ℚ × List ℚ := (o.headD 0, o.tail)

/-- Source `consumeBestWater`: prefer clean water over dirty; drinking dirty
water rolls a grit/medical-reduced sickness chance on the global random source
and applies the "gross water" moodlet.  Returns `true` iff something was drunk. -/
def consumeBestWater (st : GState) (c : Character) (now : ℚ) (oracle : List ℚ) :
    GState × Character × List ℚ × Bool :=
  let options := ["water_clean", "water_dirty"].filter
    (fun id => hasItemInStorage st.storage id 1)
  match options.head? with
  | none => (st, c, oracle, false)
  | some pick =>
    let (storage, _) := removeItemFromStorage st.storage pick 1
    let st := { st with storage := storage }
    let w := (itemsById pick).bind (·.water)
    let thirst := (w.map (·.thirst)).getD 10
    let c := { c with needs := { c.needs with
      thirst := jsClamp (c.needs.thirst + thirst) 0 100 } }
    let (st, c, oracle) :=
      if (w.map (·.dirty)).getD false then
        let grit := effectiveSkill c .grit
        let med := effectiveSkill c .medical
        let chance := jsClamp (18/100 - (grit : ℚ) * (1/100) - (med : ℚ) * (1/100))
          (4/100) (25/100)
        let (r, oracle) := oracleDraw oracle
        let (st, c) :=
          if r < chance then
            applySickness st c now "Dirty Water Sickness" (3 * 60 * 60 * 1000)
          else (st, c)
        let m : Moodlet :=
          { id := "m_grosswater", endsAt := gameNow st now + 30 * 60 * 1000, moraleDelta := -3 }
        let c := applyMoodlet c m
        (st, c, oracle)
      else (st, c, oracle)
    (pushLog st "info" "drank.water", c, oracle, true)

/-- Quality sort key: `{ low: 0, mid: 1, high: 2 }[q] ?? 0`. -/
def qualityOrder (q : String) : Nat :=
  if q = "low" then 0 else if q = "mid" then 1 else if q = "high" then 2 else 0

/-- First element with the minimal quality order — the head of the source's
stable `sort` by quality (eat the worst first). -/
def firstMinByQuality (l : List (Stack × ItemDef)) : Option (Stack × ItemDef) :=
  l.foldl (fun best x =>
    match best with
    | none => some x
    | some b =>
      if qualityOrder ((x.2.food.map (·.quality)).getD "low") <
         qualityOrder ((b.2.food.map (·.quality)).getD "low") then some x else best)
    none

/-- Source `consumeRationFood`: eat the lowest-quality ration-allowed food in
storage; raw food rolls a sickness chance on the global random source. -/
def consumeRationFood (st : GState) (c : Character) (now : ℚ) (oracle : List ℚ) :
    GState × Character × List ℚ × Bool :=
  let candidates := (st.storage.stackList.filter (fun s => 0 < s.qty)).filterMap
    (fun s => (itemsById s.itemId).map (fun d => (s, d)))
  let candidates := candidates.filter
    (fun x => x.2.category = "food" ∧ x.1.isRationAllowed)
  match firstMinByQuality candidates with
  | none => (st, c, oracle, false)
  | some (stk, def_) =>
    let (storage, _) := removeItemFromStorage st.storage stk.itemId 1
    let st := { st with storage := storage }
    let hunger := ((def_.food.map (·.hunger)).getD 10)
    let c := { c with needs := { c.needs with
      hunger := jsClamp (c.needs.hunger + hunger) 0 100 } }
    let morale := ((def_.food.map (·.morale)).getD 0)
    let c := { c with needs := { c.needs with
      morale := jsClamp (c.needs.morale + morale) 0 100 } }
    let q := (def_.food.map (·.quality)).getD "low"
    let mSlop : Moodlet :=
      { id := "m_slop", endsAt := gameNow st now + 2 * 60 * 60 * 1000, moraleDelta := -6 }
    let c := if q = "low" then applyMoodlet c mSlop else c
    let mHearty : Moodlet :=
      { id := "m_hearty", endsAt := gameNow st now + 4 * 60 * 60 * 1000, moraleDelta := 10 }
    let c := if q = "high" then applyMoodlet c mHearty else c
    let (st, c, oracle) :=
      if (def_.food.map (·.raw)).getD false then
        let grit := effectiveSkill c .grit
        let chance := jsClamp (25/100 - (grit : ℚ) * (1/100)) (6/100) (28/100)
        let (r, oracle) := oracleDraw oracle
        let (st, c) :=
          if r < chance then applySickness st c now "Food Poisoning" (2 * 60 * 60 * 1000)
          else (st, c)
        (st, c, oracle)
      else (st, c, oracle)
    (pushLog st "info" "ate.rations", c, oracle, true)

/-- The auto-drink block of `maybeAutoConsume`: when thirst is at or below the
threshold, try `consumeBestWater`, applying the "Parched" moodlet when nothing
was drunk. -/
def autoDrinkStep (st : GState) (c : Character) (now : ℚ) (oracle : List ℚ) :
    GState × Character × List ℚ :=
  if c.needs.thirst ≤ cfgAutoConsumeThreshold then
    let (st, c, oracle, drank) := consumeBestWater st c now oracle
    if drank then (st, c, oracle)
    else
      let m : Moodlet :=
        { id := "m_parched", endsAt := gameNow st now + 60 * 60 * 1000, moraleDelta := -8 }
      (st, applyMoodlet c m, oracle)
  else (st, c, oracle)

/-- The auto-eat block of `maybeAutoConsume`: when hunger is at or below the
threshold, try `consumeRationFood`, applying the "Hungry" moodlet when nothing
was eaten. -/
def autoEatStep (st : GState) (c : Character) (now : ℚ) (oracle : List ℚ) :
    GState × Character × List ℚ :=
  if c.needs.hunger ≤ cfgAutoConsumeThreshold then
    let (st, c, oracle, ate) := consumeRationFood st c now oracle
    if ate then (st, c, oracle)
    else
      let m : Moodlet :=
        { id := "m_hungry", endsAt := gameNow st now + 60 * 60 * 1000, moraleDelta := -10 }
      (st, applyMoodlet c m, oracle)
  else (st, c, oracle)

/-- Source `maybeAutoConsume`: skip downed characters; auto-drink when thirst is
at or below the configured threshold, then auto-eat (reading the needs as the
drink block left them). -/
def maybeAutoConsume (st : GState) (c : Character) (now : ℚ) (oracle : List ℚ) :
    GState × Character × List ℚ :=
  if c.conditions.downed then (st, c, oracle)
  else
    let (st, c, oracle) := autoDrinkStep st c now oracle
    autoEatStep st c now oracle

/-! ## Jobs / biomes / stations / recipes catalogs -/

/-- Yield table entry `{ itemId, min, max, chance? }` (every catalog entry
defines `min` and `max`; `chance` is absent throughout the fallback data). -/
structure YieldEntry where
  id : String
  min : ℤ
  max : ℤ
  chance : Option ℚ := none
  deriving Repr, DecidableEq

structure RiskProps where
  minorInjury : ℚ := 0
  majorInjury : ℚ := 0
  toolWear : ℚ := 0
  sickness : ℚ := 0
  deriving Repr, DecidableEq

structure JobDef where
  id : String
  baseSec : Option ℚ := none
  strenuous : Bool := false
  toolTag : Option String := none
  yields : List YieldEntry := []
  risk : Option RiskProps := none
  requiresItem : Option String := none
  xpSkill : Option Skill := none
  deriving Repr, DecidableEq

/-- Jobs catalog: `FALLBACK_DATA.jobs` plus the injected `gather_water` and
`explore` jobs (those two carry `baseMinutes`, not `baseSec`, so their
`baseSec` is absent and `job.baseSec || 600` falls back to 600). -/
def allJobs : List JobDef := [
  { id := "forage", baseSec := some 600, strenuous := false, toolTag := some "cutting",
    yields := [⟨"stick", 2, 6, none⟩, ⟨"stone", 1, 4, none⟩, ⟨"fiber", 0, 4, none⟩],
    risk := some { minorInjury := 3/100, majorInjury := 5/1000, toolWear := 12/100 },
    xpSkill := some .wilderness },
  { id := "fish", baseSec := some 900, strenuous := false, toolTag := some "fishing",
    yields := [⟨"fish_raw", 1, 3, none⟩, ⟨"water_dirty", 0, 1, none⟩],
    risk := some { minorInjury := 2/100, majorInjury := 4/1000, toolWear := 10/100 },
    xpSkill := some .wilderness },
  { id := "hunt", baseSec := some 1200, strenuous := true, toolTag := some "cutting",
    yields := [⟨"meat_raw", 1, 3, none⟩],
    risk := some { minorInjury := 6/100, majorInjury := 1/100, toolWear := 15/100 },
    xpSkill := some .wilderness },
  { id := "trap", baseSec := some 1800, strenuous := false, toolTag := some "trap",
    yields := [⟨"meat_raw", 0, 3, none⟩],
    risk := some { minorInjury := 4/100, majorInjury := 7/1000, toolWear := 10/100 },
    requiresItem := some "trap_simple", xpSkill := some .wilderness },
  { id := "scavenge", baseSec := some 1500, strenuous := true, toolTag := some "chopping",
    yields := [⟨"scrap_metal", 2, 7, none⟩, ⟨"wiring", 0, 2, none⟩],
    risk := some { minorInjury := 9/100, majorInjury := 2/100, toolWear := 20/100,
                   sickness := 3/100 },
    xpSkill := some .scavenge },
  { id := "gather_water", xpSkill := some .wilderness },
  { id := "explore", xpSkill := some .wilderness }]

def jobsById (id : String) : Option JobDef := allJobs.find? (fun j => j.id = id)

structure BiomeDef where
  id : String
  weight : ℚ
  tags : List String
  yieldMult : List (String × ℚ) := []
  deriving Repr, DecidableEq

/-- Biomes catalog (`FALLBACK_DATA.biomes`; none declares `yieldMult`). -/
def allBiomes : List BiomeDef := [
  { id := "wild_forest", weight := 22, tags := ["wild"] },
  { id := "riverbed", weight := 12, tags := ["wet"] },
  { id := "overgrown_suburb", weight := 20, tags := ["ruins", "wild"] },
  { id := "collapsed_downtown", weight := 14, tags := ["ruins", "danger"] },
  { id := "industrial_scrap", weight := 16, tags := ["ruins", "industrial"] },
  { id := "desert_highway", weight := 16, tags := ["dry"] }]

def biomesById (id : String) : Option BiomeDef := allBiomes.find? (fun b => b.id = id)

/-- Station level effect entries. -/
inductive StEffect
  | storageCap (v : Nat)
  | crewCap (v : Nat)
  | stationLevel (station : String) (v : Nat)
  | purifierEnabled (b : Bool)
  | recyclerEnabled (b : Bool)
  deriving Repr, DecidableEq

structure StationLevel where
  level : Nat
  cost : List (String × Nat) := []
  effects : List StEffect := []
  deriving Repr, DecidableEq

structure StationDef where
  id : String
  levels : List StationLevel
  deriving Repr, DecidableEq

/-- Stations catalog (`FALLBACK_DATA.stations`). -/
def allStations : List StationDef := [
  { id := "storage", levels := [
      { level := 0, effects := [.storageCap 60] },
      { level := 1, cost := [("scrap_metal", 10), ("wiring", 3)], effects := [.storageCap 90] },
      { level := 2, cost := [("scrap_metal", 25), ("wiring", 10)], effects := [.storageCap 130] }] },
  { id := "bunks", levels := [
      { level := 0, effects := [.crewCap 2] },
      { level := 1, cost := [("fiber", 12), ("scrap_metal", 8)], effects := [.crewCap 3] },
      { level := 2, cost := [("fiber", 25), ("scrap_metal", 18), ("wiring", 5)],
        effects := [.crewCap 4] }] },
  { id := "workbench", levels := [
      { level := 0, effects := [.stationLevel "workbench" 0] },
      { level := 1, cost := [("scrap_metal", 12)], effects := [.stationLevel "workbench" 1] },
      { level := 2, cost := [("scrap_metal", 28), ("wiring", 8)],
        effects := [.stationLevel "workbench" 2] }] },
  { id := "stove", levels := [
      { level := 0, effects := [.stationLevel "stove" 0] },
      { level := 1, cost := [("scrap_metal", 10)], effects := [.stationLevel "stove" 1] }] },
  { id := "purifier", levels := [
      { level := 0, effects := [.purifierEnabled false] },
      { level := 1, cost := [("wiring", 6), ("scrap_metal", 12)],
        effects := [.purifierEnabled true] }] },
  { id := "recycler", levels := [
      { level := 0, effects := [.recyclerEnabled false] },
      { level := 1, cost := [("scrap_metal", 18), ("wiring", 7)],
        effects := [.recyclerEnabled true] }] }]

structure RecipeSpecial where
  makeItemId : String
  qty : Nat
  deriving Repr, DecidableEq

structure RecipeDef where
  id : String
  station : String
  stationLevel : Nat := 0
  timeSec : ℚ
  inputs : List (String × Nat) := []
  outputs : List (String × Nat) := []
  special : Option RecipeSpecial := none
  deriving Repr, DecidableEq

/-- Recipes catalog (`FALLBACK_DATA.recipes`). -/
def allRecipes : List RecipeDef := [
  { id := "cordage", station := "workbench", timeSec := 60,
    inputs := [("fiber", 3)], outputs := [("fiber", 0)],
    special := some { makeItemId := "cordage_item", qty := 1 } },
  { id := "spear_fishing", station := "workbench", timeSec := 180,
    inputs := [("stick", 3), ("stone", 2), ("fiber", 2)],
    outputs := [("spear_fishing", 1)] },
  { id := "trap_simple", station := "workbench", timeSec := 150,
    inputs := [("stick", 2), ("fiber", 3)], outputs := [("trap_simple", 1)] },
  { id := "hatchet_stone", station := "workbench", timeSec := 210,
    inputs := [("stick", 2), ("stone", 3), ("fiber", 2)],
    outputs := [("hatchet_stone", 1)] },
  { id := "bandage", station := "workbench", timeSec := 120,
    inputs := [("fiber", 4)], outputs := [("bandage", 1)] },
  { id := "cook_meat", station := "stove", timeSec := 180,
    inputs := [("meat_raw", 1)], outputs := [("ration_basic", 1)] },
  { id := "cook_fish", station := "stove", timeSec := 150,
    inputs := [("fish_raw", 1)], outputs := [("ration_basic", 1)] },
  { id := "boil_water", station := "stove", timeSec := 120,
    inputs := [("water_dirty", 1)], outputs := [("water_clean", 1)] },
  { id := "meal_hearty", station := "stove", stationLevel := 1, timeSec := 600,
    inputs := [("ration_basic", 2), ("fiber", 1)], outputs := [("meal_hearty", 1)] }]

def recipesById (id : String) : Option RecipeDef := allRecipes.find? (fun r => r.id = id)

/-- Pace multipliers; `yld` is the source's `yield` field. -/
structure PaceMult where
  dur : ℚ
  yld : ℚ
  risk : ℚ
  deriving Repr, DecidableEq

/-- Source `paceMultipliers(pace)`. -/
def paceMultipliers (pace : String) : PaceMult :=
  if pace = "safe" then ⟨11/10, 9/10, 3/4⟩
  else if pace = "push" then ⟨17/20, 23/20, 27/20⟩
  else ⟨1, 1, 1⟩

/-! ## Geohash -/

def GEOHASH_BASE32 : List Char := "0123456789bcdefghjkmnpqrstuvwxyz".toList

/-- Bisection state of `geohashEncode`'s loop. -/
structure GeoRange where
  latMin : ℚ := -90
  latMax : ℚ := 90
  lonMin : ℚ := -180
  lonMax : ℚ := 180
  evenBit : Bool := true
  deriving Repr, DecidableEq

/-- One bisection bit of `geohashEncode` (`idx = idx*2 (+1)`). -/
def geohashBit (lat lon : ℚ) (g : GeoRange) (idx : Nat) : GeoRange × Nat :=
  if g.evenBit then
    let mid := (g.lonMin + g.lonMax) / 2
    if mid ≤ lon then ({ g with lonMin := mid, evenBit := false }, idx * 2 + 1)
    else ({ g with lonMax := mid, evenBit := false }, idx * 2)
  else
    let mid := (g.latMin + g.latMax) / 2
    if mid ≤ lat then ({ g with latMin := mid, evenBit := true }, idx * 2 + 1)
    else ({ g with latMax := mid, evenBit := true }, idx * 2)

/-- Five bisection bits produce one base-32 character. -/
def geohashChar (lat lon : ℚ) (g : GeoRange) : GeoRange × Char :=
  let (g, i) := geohashBit lat lon g 0
  let (g, i) := geohashBit lat lon g i
  let (g, i) := geohashBit lat lon g i
  let (g, i) := geohashBit lat lon g i
  let (g, i) := geohashBit lat lon g i
  (g, GEOHASH_BASE32.getD i '0')

def geohashEncodeAux (lat lon : ℚ) : Nat → GeoRange → List Char
  | 0, _ => []
  | n + 1, g =>
    let (g, ch) := geohashChar lat lon g
    ch :: geohashEncodeAux lat lon n g

/-- Source `geohashEncode(lat, lon, precision)`. -/
def geohashEncode (lat lon : ℚ) (precision : Nat) : String :=
  ⟨geohashEncodeAux lat lon precision {}⟩

inductive GeoDir
  | right | left | top | bottom
  deriving Repr, DecidableEq

/-- The `NEIGHBORS` lookup tables keyed by direction and odd/even parity. -/
def neighborTable : GeoDir → Bool → String
  | .right, false => "bc01fg45238967deuvhjyznpkmstqrwx"
  | .right, true => "p0r21436x8zb9dcf5h7kjnmqesgutwvy"
  | .left, false => "238967debc01fg45kmstqrwxuvhjyznp"
  | .left, true => "14365h7k9dcfesgujnmqp0r2twvyx8zb"
  | .top, false => "p0r21436x8zb9dcf5h7kjnmqesgutwvy"
  | .top, true => "bc01fg45238967deuvhjyznpkmstqrwx"
  | .bottom, false => "14365h7k9dcfesgujnmqp0r2twvyx8zb"
  | .bottom, true => "238967debc01fg45kmstqrwxuvhjyznp"

/-- The `BORDERS` lookup tables keyed by direction and odd/even parity. -/
def borderTable : GeoDir → Bool → String
  | .right, false => "bcfguvyz"
  | .right, true => "prxz"
  | .left, false => "0145hjnp"
  | .left, true => "028b"
  | .top, false => "prxz"
  | .top, true => "bcfguvyz"
  | .bottom, false => "028b"
  | .bottom, true => "0145hjnp"

/-- `GEOHASH_BASE32.charAt(NEIGHBORS[dir][type].indexOf(last))`; `indexOf` can
miss (-1), in which case `charAt(-1)` is the empty string (`none` here). -/
def neighborChar (dir : GeoDir) (isOdd : Bool) (last : Char) : Option Char :=
  ((neighborTable dir isOdd).toList.indexOf? last).bind (fun i => GEOHASH_BASE32.get? i)

/-- Source `geohashAdjacent` on the reversed character list (last char first);
parity `odd` means the current hash length is odd.  The impossible empty-hash
edge (`hash.slice(-1)` of `""`, where JS's `"".includes` and `indexOf("")`
conspire to return `"0"`) is mapped to `['0']` and is unreachable from any
nonempty tile id. -/
def geohashAdjacentRev (dir : GeoDir) : List Char → List Char
  | [] => ['0']
  | last :: base =>
    let isOdd := (base.length + 1) % 2 = 1
    let c := neighborChar dir isOdd last
    if (borderTable dir isOdd).toList.contains last ∧ base ≠ [] then
      c.toList ++ geohashAdjacentRev dir base
    else
      c.toList ++ base

/-- Source `geohashAdjacent(hash, dir)` (lower-cases its input first). -/
def geohashAdjacent (hash : String) (dir : GeoDir) : String :=
  ⟨(geohashAdjacentRev dir hash.toLower.toList.reverse).reverse⟩

/-- Source `geohashNeighbors(hash)`. -/
structure GeoNeighbors where
  n : String
  s : String
  e : String
  w : String
  ne : String
  nw : String
  se : String
  sw : String
  deriving Repr, DecidableEq

def geohashNeighbors (hash : String) : GeoNeighbors :=
  let n := geohashAdjacent hash .top
  let s := geohashAdjacent hash .bottom
  let e := geohashAdjacent hash .right
  let w := geohashAdjacent hash .left
  { n := n, s := s, e := e, w := w,
    ne := geohashAdjacent n .right, nw := geohashAdjacent n .left,
    se := geohashAdjacent s .right, sw := geohashAdjacent s .left }

/-! ## Tile generation -/

/-- The discovery block of `getOrCreateTile`: when the tile is unseen, pick its
biome by seeded, neighbor-influenced weighted roulette and store it; otherwise
leave the state untouched. -/
def discoverTile (st : GState) (now : ℚ) (tileId : String) : GState :=
  match alist.lookup st.discoveredTiles tileId with
    | some _ => st
    | none =>
      let nb := geohashNeighbors tileId
      -- `if (state.world.discoveredTiles[nt]?.biomeId) neighborBiomes.push(...)`
      let neighborBiomes := [nb.n, nb.s, nb.e, nb.w].filterMap (fun nt =>
        match alist.lookup st.discoveredTiles nt with
        | some t => t.biomeId.bind (fun b => if b ≠ "" then some b else none)
        | none => none)
      let seed := hashStringToUint (cfgWorldSeed ++ "::" ++ tileId)
      let baseWeights := allBiomes.map (fun b => (b.id, b.weight))
      let picks := baseWeights.map (fun e =>
        let extra : ℚ := 12 * (neighborBiomes.count e.1 : ℚ)
        let tagExtra : ℚ :=
          match neighborBiomes.head? with
          | none => 0
          | some nb0 =>
            match allBiomes.find? (fun x => x.id = nb0),
                  allBiomes.find? (fun x => x.id = e.1) with
            | some nbDef, some meDef =>
              3 * ((meDef.tags.filter (fun t => nbDef.tags.contains t)).length : ℚ)
            | _, _ => 0
        (e.1, e.2 + extra + tagExtra))
      let (_, biomeId) := weightedPick seed picks
      let tile : Tile := { tileId := tileId, biomeId := biomeId, createdAt := gameNow st now }
      { st with discoveredTiles := alist.insert st.discoveredTiles tileId tile }

/-- The tutorial-overlay block of `getOrCreateTile`: on the first-ever tile
(and only once), mark the stored tile and attach the recruit encounter. -/
def tutorialOverlayStep (st : GState) (tileId : String) : GState :=
  if st.meta.tutorialDone then st
  else
    -- `state.meta.firstTileId = state.meta.firstTileId || tileId`
    let first :=
      match st.meta.firstTileId with
      | some f => if f ≠ "" then f else tileId
      | none => tileId
    let st := { st with meta := { st.meta with firstTileId := some first } }
    if tileId = first then
      match alist.lookup st.discoveredTiles tileId with
      | some tile =>
        if tile.tutorialOverlay then st
        else
          let tile := { tile with tutorialOverlay := true, encounter := some "npc_scavenger" }
          let st := { st with discoveredTiles := alist.insert st.discoveredTiles tileId tile }
          pushLog st "system" "tutorial.overlay"
      | none => st
    else st

/-- Source `getOrCreateTile(state, loadedData, tileId)`: the discovery block,
then the tutorial-overlay block, then return the stored tile
(`return state.world.discoveredTiles[tileId]`). -/
def getOrCreateTile (st : GState) (now : ℚ) (tileId : String) : GState × Tile :=
  let st := discoverTile st now tileId
  let st := tutorialOverlayStep st tileId
  (st, (alist.lookup st.discoveredTiles tileId).getD
    { tileId := tileId, biomeId := none, createdAt := 0 })

/-! ## Job start / XP -/

/-- Source `getToolTierForJob`: integer tool tier of the equipped tool matching
the job's `toolTag`, floored at 0; 0 when the job wants no tool or none is
equipped. -/
def getToolTierForJob (c : Character) (job : JobDef) : ℤ :=
  match job.toolTag with
  | none => 0
  | some tag =>
    match getEquippedToolDef c (some tag) with
    | some (d, _) =>
      match d.tool with
      | some t => max 0 t.tier
      | none => 0
    | none => 0

structure StartJobOpts where
  durationMs : Option ℚ := none
  tileId : Option String := none
  meta : Option JobMeta := none
  deriving Repr, DecidableEq

/-- Source `startJobForChar(state, loadedData, charId, jobId, pace, opts)`.
After the validations pass, the queue-entry object literal is evaluated; its
last field reads `(recipe.inputs || [])`, but no binding named `recipe` exists
in this function or any enclosing scope (the line belongs to `startCraft`'s
entry), so in strict mode the literal throws `ReferenceError: recipe is not
defined` — before the entry is pushed, before `startAt` is stamped for an empty
queue, and before the `{ ok: true }` result is built.  The validation failures
before that point return normally. -/
def startJobForChar (st : GState) (now : ℚ) (charId jobId : String)
    (pace : String) (opts : Option StartJobOpts) :
    Except JsError (GState × JsRes) :=
  let opts := opts.getD {}
  match st.members.find? (fun m => m.id = charId) with
  | none => .ok (st, { ok := false, reason := "bad char" })
  | some char =>
    if char.conditions.downed then .ok (st, { ok := false, reason := "downed" })
    else
      match jobsById jobId with
      | none => .ok (st, { ok := false, reason := "bad job" })
      | some job =>
        let reqMissing :=
          match job.requiresItem with
          | some req => if hasItemInStorage st.storage req 1 then none else some req
          | none => none
        match reqMissing with
        | some req => .ok (st, { ok := false, reason := "Requires item: " ++ req })
        | none =>
          let toolOk :=
            match job.toolTag with
            | some tag => (getEquippedToolDef char (some tag)).isSome
            | none => true
          let mult := paceMultipliers pace
          let baseDurationMs : ℚ := (jsRound ((job.baseSec.getD 600) * mult.dur) : ℚ) * 1000
          let durationMs : ℚ :=
            match opts.durationMs with
            | some d => max 1000 ((jsRound d : ℚ))
            | none => baseDurationMs
          -- entry literal: `inputs: (recipe.inputs || []).map(i => ...)` throws here
          let _ := toolOk
          let _ := durationMs
          .error (.referenceError "recipe is not defined")

/-- Source `xpToNext(level, base, growth)`: `Math.round(base * growth^level)`
(with the fallback config, `base = 100`, `growth = 1.35`). -/
def xpToNext (level : Nat) : Nat :=
  (jsRound (cfgXpBase * cfgXpGrowth ^ level)).toNat

/-- The `while (xp >= needed && ups < 25)` level-up loop for one skill, with the
remaining allowed ups as fuel.  Returns (remaining xp, new level, ups). -/
def levelUpLoop : Nat → Nat → Nat → Nat × Nat × Nat
  | 0, xp, level => (xp, level, 0)
  | fuel + 1, xp, level =>
    let needed := xpToNext level
    if needed ≤ xp then
      let (xp2, level2, ups) := levelUpLoop fuel (xp - needed) (level + 1)
      (xp2, level2, ups + 1)
    else (xp, level, 0)

/-- Source `processLevelUps`: run the capped level-up loop for every skill in
the `xp` record (insertion order Wilderness, Scavenge, Mechanics, Cooking,
Medical, Grit), logging one line per levelled skill.  `toast` is UI-only. -/
def processLevelUps (st : GState) (c : Character) : GState × Character :=
  let step := fun (acc : GState × Character) (s : Skill) =>
    let (st, c) := acc
    let (xp2, level2, ups) := levelUpLoop 25 (c.xp.get s) (c.stats.get s)
    let c := { c with stats := c.stats.set s level2 }
    let c := if 0 < ups then { c with xp := c.xp.set s xp2 } else c
    let st := if 0 < ups then pushLog st "good" "levelup" else st
    (st, c)
  [Skill.wilderness, .scavenge, .mechanics, .cooking, .medical, .grit].foldl step (st, c)

/-! ## Job resolution (`resolveJobCompletion`) -/

/-- Rng state: the mulberry32 seed. -/
abbrev Rng := Nat

def rngNext (r : Rng) : Rng × ℚ := mulberry32Next r

/-- State-level wrapper for `addItemToStorage` threading the uid counter. -/
def stAddItem (st : GState) (itemId : String) (qty : Nat)
    (rationAllowed : Option Bool := none) : GState × JsRes :=
  let (storage, ctr, res) := addItemToStorage st.storage st.nextUid itemId qty rationAllowed
  ({ st with storage := storage, nextUid := ctr }, res)

/-- State-level wrapper for `removeItemFromStorage`. -/
def stRemoveItem (st : GState) (itemId : String) (qty : Nat) : GState × Bool :=
  let (storage, ok) := removeItemFromStorage st.storage itemId qty
  ({ st with storage := storage }, ok)

/-- Per-resolution rng seed derivation:
`mulberry32(hashStringToUint(`${state.rngSeed}|${__seedTime}|${jEntry.id}`))`
with `__seedTime = Math.floor(((state.meta.lastSimAt || gameNow(state)) ||
nowReal()) / 1000)`.  `state.rngSeed` is assigned nowhere, so its interpolation
prints `"undefined"`. -/
def resolveSeed (st : GState) (now : ℚ) (entryId : String) : Rng :=
  let a := if st.meta.lastSimAt ≠ 0 then st.meta.lastSimAt else gameNow st now
  let a := if a ≠ 0 then a else now
  let seedTime : ℤ := jsFloor (a / 1000)
  hashStringToUint ((st.rngSeed.getD "undefined") ++ "|" ++ toString seedTime ++ "|" ++ entryId)

/-- Tile resolution at the top of `resolveJobCompletion`: fall back to the
deterministic `geohashEncode(0, 0, precision)` tile when the player never set a
location, persisting the fallback id into `meta.lastTileId`. -/
def resolveTilePart (st : GState) (now : ℚ) : GState × Tile :=
  let tileId :=
    match st.meta.lastTileId with
    | some t => t
    | none => geohashEncode 0 0 cfgTilePrecision
  let st :=
    if st.meta.lastTileId.isNone then
      { st with meta := { st.meta with lastTileId := some tileId } }
    else st
  getOrCreateTile st now tileId

/-- The yield roll loop shared (textually duplicated in the source) by the
normal branch and the explore branch:
for each `{itemId, min, max, chance}`, skip when `chance < 1` and a draw
exceeds it; roll `randInt(rng, min, max)`; `Math.ceil` by the biome's per-item
multiplier when that is truthy; `Math.max(0, Math.floor(qty * yieldMult))`;
positive amounts are added to storage, aborting the remaining yields with a
logged warning on the first storage-full.  `collect` distinguishes the normal
branch (which records gains into `got`) from the explore branch (which does
not). -/
def yieldRollLoop (tagOnFull : String) (collect : Bool) (biome : Option BiomeDef)
    (ym : ℚ) : GState → Rng → List YieldEntry →
    GState × Rng × List (String × Nat)
  | st, rng, [] => (st, rng, [])
  | st, rng, y :: rest =>
    let (skip, rng) :=
      if (y.chance.getD 1) < 1 then
        let (rng, r) := rngNext rng
        (decide ((y.chance.getD 1) < r), rng)
      else (false, rng)
    if skip then yieldRollLoop tagOnFull collect biome ym st rng rest
    else
      let (rng, r) := rngNext rng
      let qty : ℤ := randInt r y.min y.max
      let qty : ℤ :=
        match biome.bind (fun b => alist.lookup b.yieldMult y.id) with
        | some m => if m ≠ 0 then jsCeil ((qty : ℚ) * m) else qty
        | none => qty
      let qty : ℤ := max 0 (jsFloor ((qty : ℚ) * ym))
      if 0 < qty then
        let (st, res) := stAddItem st y.id qty.toNat
        if res.ok then
          let (st, rng, got) := yieldRollLoop tagOnFull collect biome ym st rng rest
          (st, rng, if collect then (y.id, qty.toNat) :: got else got)
        else (pushLog st "warn" tagOnFull, rng, [])
      else yieldRollLoop tagOnFull collect biome ym st rng rest

/-- Named `applyInjury` calls (major "Broken Leg" / minor "Sprained Ankle")
never throw; this unwraps the impossible error case. -/
def applyInjuryNamed (st : GState) (c : Character) (now : ℚ) (severity name : String)
    (durationMs : ℚ) : GState × Character :=
  ((applyInjury st c now severity (some name) (some durationMs)).toOption).getD (st, c)

/-- Result of one `resolveJobCompletion` run: final state, final character,
remaining oracle stream, and the exception (if one escaped mid-resolution; the
caller's try/catch absorbs it). -/
structure ResolveOut where
  st : GState
  c : Character
  oracle : List ℚ
  err : Option JsError
  deriving Repr, DecidableEq

/-- Everything in `resolveJobCompletion` after the `maybeAutoConsume` call.
This segment never touches the global random source — all of its draws come
from the per-entry seeded rng — which is what the determinism theorems exploit.
Returns the exception escaping from the explore branch's nameless
`applyInjury` call, if that path was taken. -/
def resolveAfterConsume (st : GState) (c : Character) (now : ℚ) (job : JobDef)
    (e : JobEntry) (tile : Tile) (rng : Rng) (mins : ℚ) :
    GState × Character × Option JsError :=
  let mult := paceMultipliers e.pace
  let skill := effectiveSkill c (job.xpSkill.getD .wilderness)
  let moraleMod := currentMoraleModifier c
  let moralePenalty : ℚ := if moraleMod < 0 then (-moraleMod) * (2/1000) else 0
  let toolInfo :=
    match job.toolTag with
    | some tag => getEquippedToolDef c (some tag)
    | none => none
  let toolTier : ℤ :=
    match toolInfo with
    | some (d, _) => ((d.tool.map (·.tier))).getD (if e.toolOk then 1 else 0)
    | none => if e.toolOk then 1 else 0
  let toolPower : ℚ :=
    match toolInfo with
    | some (d, _) => ((d.tool.map (·.power))).getD 0
    | none => 0
  let protection := getTotalProtection c
  -- Final yield multiplier — computed here exactly as documented, but the
  -- branches below each bind their own `yieldMult`, shadowing this one; no
  -- yield roll reads it.
  let yieldMult : ℚ := mult.yld * (1 + (skill : ℚ) * (4/100)) *
    (1 + (toolTier : ℚ) * (5/100)) * (1 - moralePenalty)
  let riskMult : ℚ := mult.risk * (1 - protection * (6/10)) *
    (1 - (toolTier : ℚ) * (6/100)) *
    (1 + (if c.conditions.sickness.isSome then 2/10 else 0)) *
    (1 + (if (c.conditions.injury.map (·.severity)).getD "" = "minor" then 15/100 else 0)) *
    (1 + (if (c.conditions.injury.map (·.severity)).getD "" = "major" then 35/100 else 0))
  let _ := yieldMult
  -- Branch on the v0.2 special jobs, collecting `got` in the normal branch.
  let branch : Except (GState × Character × JsError)
      (GState × Character × Rng × List (String × Nat)) :=
    match e.meta with
    | some (.gatherWater _ waterItemId waterQty) =>
      let waterId := if waterItemId ≠ "" then waterItemId else "water_dirty"
      let qty : Nat := (max 0 (jsFloor waterQty)).toNat
      let st :=
        if 0 < qty then
          let (st, res) := stAddItem st waterId qty
          if res.ok then pushLog st "good" "gathered.water"
          else pushLog st "warn" "storage.full.water"
        else st
      .ok (st, c, rng, [])
    | some (.explore actionJobId _ _) =>
      let actionJob := actionJobId.bind jobsById
      let toolTierEx := getToolTierForJob c (actionJob.getD job)
      let wild := effectiveSkill c .wilderness
      let wits : Nat := 0   -- `effectiveSkill(char, "Wits")`: key absent from stats and xp
      let grit := effectiveSkill c .grit
      let successChance := jsClamp (55/100 + (wild : ℚ) * (2/100) + (wits : ℚ) * (1/100)
        + (toolTierEx : ℚ) * (4/100)) (25/100) (95/100)
      let (rng, r) := rngNext rng
      let success := r < successChance
      let (st, rng) :=
        if success ∧ ((actionJob.map (·.yields)).getD []) ≠ [] then
          let biome := tile.biomeId.bind biomesById
          let ym := jsClamp (1 + (toolTierEx : ℚ) * (15/100) + (wild : ℚ) * (2/100))
            (1/2) (7/2) * (11/10 + (grit : ℚ) * (1/100))
          let (st, rng, _) := yieldRollLoop "explore.loot.lost" false biome ym st rng
            ((actionJob.map (·.yields)).getD [])
          (pushLog st "good" "explored.loot", rng)
        else (pushLog st "info" "explored.nothing", rng)
      -- extra injury chance when exploring
      let extra := jsClamp (10/100 - (grit : ℚ) * (1/100)) (2/100) (12/100)
      let (rng, r2) := rngNext rng
      if r2 < extra then
        -- `applyInjury(state, loadedData, char, "minor")`: no name, no duration
        match applyInjury st c now "minor" none none with
        | .error err => .error (st, c, err)
        | .ok (st, c) => .ok (st, c, rng, [])
      else .ok (st, c, rng, [])
    | _ =>
      -- normal job: the branch re-derives tool tier and skill and binds its own
      -- `yieldMult` (shadowing the pace/morale one above)
      let biome := tile.biomeId.bind biomesById
      let toolTierN := getToolTierForJob c job
      let skillN : Nat :=
        match job.xpSkill with
        | some s => effectiveSkill c s
        | none => 0
      let ymN := jsClamp (1 + (toolTierN : ℚ) * (15/100) + (skillN : ℚ) * (2/100)) (1/2) (7/2)
      let (st, rng, got) := yieldRollLoop "storage.full.yields" true biome ymN st rng job.yields
      let st := if got ≠ [] then pushLog st "good" "gained" else st
      .ok (st, c, rng, got)
  match branch with
  | .error (st, c, err) => (st, c, some err)
  | .ok (st, c, rng, got) =>
    -- Risk outcomes
    let r := job.risk.getD {}
    let minorChance := jsClamp (r.minorInjury * riskMult) 0 (6/10)
    let majorChance := jsClamp (r.majorInjury * riskMult) 0 (35/100)
    let sickChance := jsClamp (r.sickness * riskMult) 0 (35/100)
    let wearChance := jsClamp (r.toolWear * riskMult) 0 (95/100)
    let (st, c, rng) : GState × Character × Rng :=
      if c.conditions.injury.isNone then
        let (rng, rMaj) := rngNext rng
        if rMaj < majorChance then
          let (st, c) := applyInjuryNamed st c now "major" "Broken Leg" (8 * 60 * 60 * 1000)
          (st, c, rng)
        else
          let (rng, rMin) := rngNext rng
          if rMin < minorChance then
            let (st, c) := applyInjuryNamed st c now "minor" "Sprained Ankle" (2 * 60 * 60 * 1000)
            (st, c, rng)
          else (st, c, rng)
      else (st, c, rng)
    let (st, c, rng) : GState × Character × Rng :=
      if c.conditions.sickness.isNone then
        let (rng, rS) := rngNext rng
        if rS < sickChance then
          let (st, c) := applySickness st c now "Ruin Dust Fever" (3 * 60 * 60 * 1000)
          (st, c, rng)
        else (st, c, rng)
      else (st, c, rng)
    -- Tool wear & break
    let (st, c, rng) : GState × Character × Rng :=
      match toolInfo with
      | some (_, inst) =>
        let (rng, rW) := rngNext rng
        if rW < wearChance then
          let wear : ℚ := max 1 ((jsRound ((2 + toolPower) * mult.risk) : ℚ))
          let newDur : ℚ := max 0 ((inst.durability.getD 0) - wear)
          let newInsts := c.pockets.instances.map (fun (i : Instance) =>
            if i.uid = inst.uid then { i with durability := some newDur } else i)
          let c := { c with pockets := { c.pockets with instances := newInsts } }
          if newDur ≤ 0 then
            let st := pushLog st "bad" "tool.broke"
            let m : Moodlet :=
              { id := "m_brokentool", endsAt := gameNow st now + 60 * 60 * 1000,
                moraleDelta := -6 }
            (st, applyMoodlet c m, rng)
          else (st, c, rng)
        else (st, c, rng)
      | none => (st, c, rng)
    -- XP
    let (st, c) : GState × Character :=
      match job.xpSkill with
      | some s =>
        let xpGain : Nat := (jsRound (10 + mins * 2 + (toolTier : ℚ) * 2)).toNat
        let c := { c with xp := c.xp.set s (c.xp.get s + xpGain) }
        let st := pushLog st "info" "xp.gain"
        processLevelUps st c
      | none => (st, c)
    -- Morale adjustments from outcomes
    let c :=
      if got ≠ [] then
        { c with needs := { c.needs with morale := jsClamp (c.needs.morale + 1) 0 100 } }
      else c
    -- Downed check
    let dangerScore : Nat :=
      (if c.needs.hunger < 10 then 1 else 0) + (if c.needs.thirst < 10 then 1 else 0) +
      (if (c.conditions.injury.map (·.severity)).getD "" = "major" then 2 else 0) +
      (if c.conditions.sickness.isSome then 1 else 0)
    let (st, c, _rng) : GState × Character × Rng :=
      if ¬ c.conditions.downed ∧ 4 ≤ dangerScore then
        let (rng, rD) := rngNext rng
        if rD < 15/100 then
          let (st, c) := downCharacter st c now
          (st, c, rng)
        else (st, c, rng)
      else (st, c, rng)
    let st := pushLog st "good" "finished.job"
    -- Tutorial completion check
    let st :=
      if st.meta.tutorialDone then st
      else
        let hasIt := fun id =>
          c.pockets.instances.any (fun i => i.itemId = id) ∨ hasItemInStorage st.storage id 1
        if hasIt "spear_fishing" ∧ hasIt "trap_simple" ∧ hasIt "hatchet_stone" then
          pushLog { st with meta := { st.meta with tutorialDone := true } } "system"
            "tutorial.done"
        else st
    (st, c, none)

/-- The post-yield tail of `resolveAfterConsume`'s normal branch — the risk
outcomes, tool wear, XP, outcome morale, downed check and final logs — as a
function of the yield-loop output, recomputing the pace/tool/protection
quantities exactly as `resolveAfterConsume` binds them.  The C3
characterization shows the normal branch factors through this: every pace- and
morale-dependent computation runs strictly after the yield-loop output is
fixed. -/
def resolveNormalTail (c0 : Character) (now : ℚ) (job : JobDef) (e : JobEntry)
    (mins : ℚ) (loopOut : GState × Rng × List (String × Nat)) :
    GState × Character × Option JsError :=
  let mult := paceMultipliers e.pace
  let toolInfo :=
    match job.toolTag with
    | some tag => getEquippedToolDef c0 (some tag)
    | none => none
  let toolTier : ℤ :=
    match toolInfo with
    | some (d, _) => ((d.tool.map (·.tier))).getD (if e.toolOk then 1 else 0)
    | none => if e.toolOk then 1 else 0
  let toolPower : ℚ :=
    match toolInfo with
    | some (d, _) => ((d.tool.map (·.power))).getD 0
    | none => 0
  let protection := getTotalProtection c0
  let riskMult : ℚ := mult.risk * (1 - protection * (6/10)) *
    (1 - (toolTier : ℚ) * (6/100)) *
    (1 + (if c0.conditions.sickness.isSome then 2/10 else 0)) *
    (1 + (if (c0.conditions.injury.map (·.severity)).getD "" = "minor" then 15/100 else 0)) *
    (1 + (if (c0.conditions.injury.map (·.severity)).getD "" = "major" then 35/100 else 0))
  let (st, rng, got) := loopOut
  let st := if got ≠ [] then pushLog st "good" "gained" else st
  let c := c0
  let r := job.risk.getD {}
  let minorChance := jsClamp (r.minorInjury * riskMult) 0 (6/10)
  let majorChance := jsClamp (r.majorInjury * riskMult) 0 (35/100)
  let sickChance := jsClamp (r.sickness * riskMult) 0 (35/100)
  let wearChance := jsClamp (r.toolWear * riskMult) 0 (95/100)
  let (st, c, rng) : GState × Character × Rng :=
    if c.conditions.injury.isNone then
      let (rng, rMaj) := rngNext rng
      if rMaj < majorChance then
        let (st, c) := applyInjuryNamed st c now "major" "Broken Leg" (8 * 60 * 60 * 1000)
        (st, c, rng)
      else
        let (rng, rMin) := rngNext rng
        if rMin < minorChance then
          let (st, c) := applyInjuryNamed st c now "minor" "Sprained Ankle" (2 * 60 * 60 * 1000)
          (st, c, rng)
        else (st, c, rng)
    else (st, c, rng)
  let (st, c, rng) : GState × Character × Rng :=
    if c.conditions.sickness.isNone then
      let (rng, rS) := rngNext rng
      if rS < sickChance then
        let (st, c) := applySickness st c now "Ruin Dust Fever" (3 * 60 * 60 * 1000)
        (st, c, rng)
      else (st, c, rng)
    else (st, c, rng)
  -- Tool wear & break
  let (st, c, rng) : GState × Character × Rng :=
    match toolInfo with
    | some (_, inst) =>
      let (rng, rW) := rngNext rng
      if rW < wearChance then
        let wear : ℚ := max 1 ((jsRound ((2 + toolPower) * mult.risk) : ℚ))
        let newDur : ℚ := max 0 ((inst.durability.getD 0) - wear)
        let newInsts := c.pockets.instances.map (fun (i : Instance) =>
          if i.uid = inst.uid then { i with durability := some newDur } else i)
        let c := { c with pockets := { c.pockets with instances := newInsts } }
        if newDur ≤ 0 then
          let st := pushLog st "bad" "tool.broke"
          let m : Moodlet :=
            { id := "m_brokentool", endsAt := gameNow st now + 60 * 60 * 1000,
              moraleDelta := -6 }
          (st, applyMoodlet c m, rng)
        else (st, c, rng)
      else (st, c, rng)
    | none => (st, c, rng)
  -- XP
  let (st, c) : GState × Character :=
    match job.xpSkill with
    | some s =>
      let xpGain : Nat := (jsRound (10 + mins * 2 + (toolTier : ℚ) * 2)).toNat
      let c := { c with xp := c.xp.set s (c.xp.get s + xpGain) }
      let st := pushLog st "info" "xp.gain"
      processLevelUps st c
    | none => (st, c)
  -- Morale adjustments from outcomes
  let c :=
    if got ≠ [] then
      { c with needs := { c.needs with morale := jsClamp (c.needs.morale + 1) 0 100 } }
    else c
  -- Downed check
  let dangerScore : Nat :=
    (if c.needs.hunger < 10 then 1 else 0) + (if c.needs.thirst < 10 then 1 else 0) +
    (if (c.conditions.injury.map (·.severity)).getD "" = "major" then 2 else 0) +
    (if c.conditions.sickness.isSome then 1 else 0)
  let (st, c, _rng) : GState × Character × Rng :=
    if ¬ c.conditions.downed ∧ 4 ≤ dangerScore then
      let (rng, rD) := rngNext rng
      if rD < 15/100 then
        let (st, c) := downCharacter st c now
        (st, c, rng)
      else (st, c, rng)
    else (st, c, rng)
  let st := pushLog st "good" "finished.job"
  -- Tutorial completion check
  let st :=
    if st.meta.tutorialDone then st
    else
      let hasIt := fun id =>
        c.pockets.instances.any (fun i => i.itemId = id) ∨ hasItemInStorage st.storage id 1
      if hasIt "spear_fishing" ∧ hasIt "trap_simple" ∧ hasIt "hatchet_stone" then
        pushLog { st with meta := { st.meta with tutorialDone := true } } "system"
          "tutorial.done"
      else st
  (st, c, none)

/-- The strain-scaled per-job hunger/thirst drain applied at the top of
`resolveJobCompletion` (`strain - 0.2` of the per-minute rates over the job's
duration). -/
def drainedByJob (c : Character) (job : JobDef) (e : JobEntry) : Character :=
  let strain : ℚ := if job.strenuous then cfgStrenuousDrainMultiplier else 1
  let mins := e.durationMs / 60000
  let c := { c with needs := { c.needs with
    hunger := jsClamp (c.needs.hunger - cfgHungerPerMin * mins * (strain - 1/5)) 0 100 } }
  { c with needs := { c.needs with
    thirst := jsClamp (c.needs.thirst - cfgThirstPerMin * mins * (strain - 1/5)) 0 100 } }

/-- Source `resolveJobCompletion(state, loadedData, char, job, jEntry)`.
`job` is `idx.jobsById.get(jEntry.jobId)` and may be `undefined`, in which case
`job.strenuous` throws a TypeError — after the tile bookkeeping but before the
drains.  The strain-scaled hunger/thirst drain and the immediate
`maybeAutoConsume` run next (the only consumers of the `Math.random()` oracle
during resolution), then everything else draws from the seeded per-entry rng. -/
def resolveJobCompletion (st : GState) (c : Character) (now : ℚ)
    (job? : Option JobDef) (e : JobEntry) (oracle : List ℚ) : ResolveOut :=
  let (st, tile) := resolveTilePart st now
  let rng := resolveSeed st now e.id
  match job? with
  | none => { st := st, c := c, oracle := oracle,
              err := some (.typeError "job undefined") }
  | some job =>
    let mins := e.durationMs / 60000
    let c := drainedByJob c job e
    let (st, c, oracle) := maybeAutoConsume st c now oracle
    let (st, c, err) := resolveAfterConsume st c now job e tile rng mins
    { st := st, c := c, oracle := oracle, err := err }

/-! ## Job queue ticking (`tickJobQueues`) -/

/-- Record of one completion processed by the tick loop: the run window
(`startAt`, `startAt + durationMs`) the entry was resolved with. -/
structure ResolveEvent where
  entryId : String
  startAt : ℚ
  endsAt : ℚ
  deriving Repr, DecidableEq

/-- The per-entry `try { resolveJobCompletion } catch` boundary in
`tickJobQueues`: an exception is logged and swallowed, the loop continues. -/
def resolveEntryCaught (st : GState) (c : Character) (now : ℚ) (e : JobEntry)
    (oracle : List ℚ) : GState × Character × List ℚ :=
  let out := resolveJobCompletion st c now (jobsById e.jobId) e oracle
  match out.err with
  | some _ => (pushLog out.st "warn" "job.completion.error", out.c, out.oracle)
  | none => (out.st, out.c, out.oracle)

/-- The `while (q.length > 0)` completion loop of `tickJobQueues`: while the
head entry is started and `startAt + durationMs ≤ t`, resolve it (exceptions
caught per entry), shift it, and stamp the new head's `startAt` to the popped
entry's end time.  Also records each completion's run window. -/
def jobCompletionLoop (now t : ℚ) : GState → Character → List ℚ → List JobEntry →
    GState × Character × List ℚ × List JobEntry × List ResolveEvent
  | st, c, oracle, [] => (st, c, oracle, [], [])
  | st, c, oracle, e :: rest =>
    match e.startAt with
    | none => (st, c, oracle, e :: rest, [])
    | some s0 =>
      let endsAt := s0 + e.durationMs
      if t < endsAt then (st, c, oracle, e :: rest, [])
      else
        let (st, c, oracle) := resolveEntryCaught st c now e oracle
        match rest with
        | [] => (st, c, oracle, [], [⟨e.id, s0, endsAt⟩])
        | h :: tl =>
          let (st, c, oracle, q, evs) :=
            jobCompletionLoop now t st c oracle ({ h with startAt := some endsAt } :: tl)
          (st, c, oracle, q, ⟨e.id, s0, endsAt⟩ :: evs)
  termination_by st c oracle q => q.length

/-- The body of `tickJobQueues` for one character once its queue is in hand:
stamp a null `startAt` on the head with virtual-now, run the completion loop,
and write the queue and character back into the state. -/
def tickJobQueuesCharRun (st : GState) (now : ℚ) (char : Character)
    (q : List JobEntry) (oracle : List ℚ) :
    GState × List ℚ × List ResolveEvent :=
  let t := gameNow st now
  let q :=
    match q with
    | e :: rest => if e.startAt.isNone then { e with startAt := some t } :: rest else e :: rest
    | [] => []
  let (st, c, oracle, q, evs) := jobCompletionLoop now t st char oracle q
  let st := { st with jobsByCharId := alist.insert st.jobsByCharId char.id q }
  let st := { st with members := st.members.map (fun m => if m.id = char.id then c else m) }
  (st, oracle, evs)

/-- The per-character body of `tickJobQueues`.  Downed characters are skipped.
With an empty queue and an idle behavior other than `"rest"`/`"none"` the
source auto-enqueues via `startJobForChar` — which throws (C1) outside the
per-entry try/catch, aborting the whole tick; that propagates here as the
error case. -/
def tickJobQueuesChar (st : GState) (now : ℚ) (charId : String) (oracle : List ℚ) :
    Except JsError (GState × List ℚ × List ResolveEvent) :=
  match st.members.find? (fun m => m.id = charId) with
  | none => .ok (st, oracle, [])
  | some char =>
    if char.conditions.downed then .ok (st, oracle, [])
    else
      let q := (alist.lookup st.jobsByCharId char.id).getD []
      if q.isEmpty ∧ char.idleBehavior ≠ "none" ∧ char.idleBehavior ≠ "rest" then
        -- `idleCycles < data.config.idleMaxCyclesPerSim` holds (0 < 20)
        match startJobForChar st now char.id char.idleBehavior "safe" none with
        | .error err => .error err
        | .ok (st, _) =>
          .ok (tickJobQueuesCharRun st now char
            ((alist.lookup st.jobsByCharId char.id).getD []) oracle)
      else .ok (tickJobQueuesCharRun st now char q oracle)

/-! ## Crafting -/

/-- Source `getStationLevel`. -/
def getStationLevel (st : GState) (stationId : String) : Nat :=
  (alist.lookup st.stations stationId).getD 0

/-- Source `canCraftRecipe`: station level sufficient and every input present
in shared storage. -/
def canCraftRecipe (st : GState) (recipe : RecipeDef) : JsRes :=
  if getStationLevel st recipe.station < recipe.stationLevel then
    { ok := false, reason := "Requires " ++ recipe.station ++ " level" }
  else
    match recipe.inputs.find? (fun i => !(hasItemInStorage st.storage i.1 i.2)) with
    | some i => { ok := false, reason := "Missing: " ++ i.1 }
    | none => { ok := true }

/-- Source `startCraft(state, loadedData, recipeId)`: validate, remove the
inputs from storage immediately, then append a queue entry (started at once if
the station queue was empty).  The entry records no input list. -/
def startCraft (st : GState) (now : ℚ) (recipeId : String) : GState × JsRes :=
  match recipesById recipeId with
  | none => (st, { ok := false, reason := "bad recipe" })
  | some recipe =>
    let can := canCraftRecipe st recipe
    if !can.ok then (st, can)
    else
      -- Remove inputs immediately
      let st := recipe.inputs.foldl (fun st i => (stRemoveItem st i.1 i.2).1) st
      let entry : CraftEntry :=
        { id := "craft_" ++ toString st.nextUid, recipeId := recipeId,
          createdAt := gameNow st now, startAt := none,
          durationMs := (if recipe.timeSec ≠ 0 then recipe.timeSec else 60) * 1000 }
      let st := { st with nextUid := st.nextUid + 1 }
      let q := (alist.lookup st.craftsByStationId recipe.station).getD []
      let entry := if q.isEmpty then { entry with startAt := some (gameNow st now) } else entry
      let q2 := alist.insert st.craftsByStationId recipe.station (q ++ [entry])
      let st := { st with craftsByStationId := q2 }
      (pushLog st "info" "craft.started", { ok := true })

/-- Source `cancelCraftEntry(state, loadedData, stationId, entryId)`: refund the
recipe's inputs (`entry.inputs || recipe?.inputs || []`; the entry never has
any — see `CraftEntry`), logging and dropping any refund that does not fit,
then splice the entry out and start the next craft if the head was cancelled. -/
def cancelCraftEntry (st : GState) (now : ℚ) (stationId entryId : String) :
    GState × JsRes :=
  match alist.lookup st.craftsByStationId stationId with
  | none => (st, { ok := false, reason := "empty" })
  | some q =>
    if q.isEmpty then (st, { ok := false, reason := "empty" })
    else
      match q.findIdx? (fun e => e.id = entryId) with
      | none => (st, { ok := false, reason := "not found" })
      | some i =>
        let entry := (q.get? i).getD ⟨"", "", 0, none, 0, false⟩
        let recipe := recipesById entry.recipeId
        let inputs := (recipe.map (·.inputs)).getD []
        let st := inputs.foldl (fun st inp =>
          let (st, res) := stAddItem st inp.1 inp.2
          if !res.ok then pushLog st "bad" "craft.refund.full" else st) st
        let q := q.eraseIdx i
        let q :=
          match q with
          | h :: tl => if i = 0 then { h with startAt := some (gameNow st now) } :: tl
                       else h :: tl
          | [] => []
        let st := { st with craftsByStationId := alist.insert st.craftsByStationId stationId q }
        (pushLog st "info" "craft.canceled", { ok := true })

/-- Source `resolveCraftCompletion`: add the special item or each output to
storage; storage-full drops just that output with a log line and the rest still
attempt (partial failure, no rollback); inputs are never consulted. -/
def resolveCraftCompletion (st : GState) (recipe? : Option RecipeDef) : GState :=
  match recipe? with
  | none => pushLog st "bad" "craft.missing.recipe"
  | some recipe =>
    match recipe.special with
    | some sp =>
      let qty := if sp.qty ≠ 0 then sp.qty else 1
      let (st, res) := stAddItem st sp.makeItemId qty
      let st := if !res.ok then pushLog st "bad" "craft.store.full" else st
      pushLog st "good" "craft.complete"
    | none =>
      let st := recipe.outputs.foldl (fun st out =>
        if out.1 = "" ∨ out.2 = 0 then st
        else
          let (st, res) := stAddItem st out.1 out.2
          if !res.ok then pushLog st "bad" "craft.store.full" else st) st
      pushLog st "good" "craft.complete"

/-! ## New-game construction -/

/-- Source `Equipment` slot assignment keyed by the item's `equipSlot` string. -/
def Equipment.setSlot (eq : Equipment) (slot : String) (v : Option Nat) : Equipment :=
  if slot = "mainHand" then { eq with mainHand := v }
  else if slot = "offHand" then { eq with offHand := v }
  else if slot = "body" then { eq with body := v }
  else if slot = "legs" then { eq with legs := v }
  else if slot = "utility" then { eq with utility := v }
  else eq

/-- Source `equipInstanceOnChar`: equip an instance from the character's own
pockets into the slot its item definition names. -/
def equipInstanceOnChar (c : Character) (instUid : Nat) : Character :=
  match c.pockets.instances.find? (fun i => i.uid = instUid) with
  | none => c
  | some inst =>
    match itemsById inst.itemId with
    | none => c
    | some def_ =>
      match def_.equipSlot with
      | none => c
      | some slot =>
        { c with equipment := c.equipment.setSlot slot (some inst.uid) }

/-- Source `makeCharacter`: fresh character with the given base stats, starting
gear realised as pocket instances (stack-size-1 items only), equipping when
requested.  The random `uid(...)` id is replaced by a counter-derived id. -/
def makeCharacter (ctr : Nat) (isPlayer : Bool) (baseStats : SkillMap)
    (startingGear : List (String × Bool)) (idleBehavior : String) :
    Nat × Character :=
  let charId := (if isPlayer then "player_" else "npc_") ++ toString ctr
  let ctr := ctr + 1
  let char : Character :=
    { id := charId, isPlayer := isPlayer, stats := baseStats,
      pockets := { capacity := 6 }, idleBehavior := idleBehavior }
  startingGear.foldl (fun (acc : Nat × Character) g =>
    let (ctr, char) := acc
    match itemsById g.1 with
    | none => (ctr, char)
    | some def_ =>
      if def_.stackSize ≠ 1 then (ctr, char)
      else
        let (ctr, inst) := makeInstance ctr def_
        let char := { char with pockets :=
          { char.pockets with instances := char.pockets.instances ++ [inst] } }
        let char :=
          if g.2 ∧ def_.equipSlot.isSome then equipInstanceOnChar char inst.uid
          else char
        (ctr, char)) (ctr, char)

/-- Source `recomputeDerivedStats`: recompute storage capacity and crew cap
from station-level effects (base 40/1 if no station data applies), and ensure
every member has a job queue. -/
def recomputeDerivedStats (st : GState) : GState :=
  let caps := allStations.foldl (fun (acc : Nat × Nat) stDef =>
    let level := (alist.lookup st.stations stDef.id).getD 0
    match (stDef.levels.find? (fun x => x.level = level)).orElse (fun _ => stDef.levels.head?) with
    | none => acc
    | some lvlDef =>
      lvlDef.effects.foldl (fun (acc : Nat × Nat) eff =>
        match eff with
        | .storageCap v => (v, acc.2)
        | .crewCap v => (acc.1, v)
        | _ => acc) acc) (40, 1)
  let st := { st with storage := { st.storage with capacity := caps.1 }, maxCrew := caps.2 }
  st.members.foldl (fun st m =>
    if (alist.lookup st.jobsByCharId m.id).isSome then st
    else { st with jobsByCharId := alist.insert st.jobsByCharId m.id [] }) st

/-- The `state` object literal of `defaultNewGameState`, just before the
starter-supply adds: all stations at level 0, storage `capacity: 0` (the
comment in the source reads "computed from station effects"), the player
created with knife + clothes equipped, and empty queues. -/
def newGameBaseState (now : ℚ) : GState :=
  let (ctr, player) := makeCharacter 0 true
    { wilderness := 2, scavenge := 1, mechanics := 1, cooking := 1, medical := 1, grit := 2 }
    [("knife_pocket", true), ("clothes_basic", true)] "rest"
  { meta := { createdAt := now, lastSimAt := now, timeOffsetMs := 0 },
    stations := allStations.map (fun s => (s.id, 0)),
    storage := { capacity := 0 },
    members := [player],
    maxCrew := 2,
    jobsByCharId := [(player.id, [])],
    craftsByStationId := allStations.map (fun s => (s.id, [])),
    nextUid := ctr }

/-- Source `defaultNewGameState(loadedData)`: base state, then the four
starter-supply `addItemToStorage` calls (their results are discarded), then
`recomputeDerivedStats` and the welcome log line. -/
def defaultNewGameState (now : ℚ) : GState :=
  let st := newGameBaseState now
  let (st, _) := stAddItem st "ration_basic" 4 (some true)
  let (st, _) := stAddItem st "water_clean" 4
  let (st, _) := stAddItem st "water_dirty" 1
  let (st, _) := stAddItem st "bottle_empty" 1
  let st := recomputeDerivedStats st
  pushLog st "system" "welcome"

/-! ## The capacity-invariant operation language (claim C4) -/

/-- One add/remove operation on shared storage or a character's pockets. -/
inductive InvOp
  | addStorage (itemId : String) (qty : Nat) (rationAllowed : Option Bool)
  | removeStorage (itemId : String) (qty : Nat)
  | addPockets (itemId : String) (qty : Nat)
  | removePockets (itemId : String) (qty : Nat)
  deriving Repr, DecidableEq

/-- Storage, one character's pockets, and the uid counter. -/
structure InvState where
  s : RvStorage
  p : Pockets
  ctr : Nat
  deriving Repr, DecidableEq

def applyInvOp (x : InvState) : InvOp → InvState
  | .addStorage i q r =>
    let (s, ctr, _) := addItemToStorage x.s x.ctr i q r
    { x with s := s, ctr := ctr }
  | .removeStorage i q =>
    let (s, _) := removeItemFromStorage x.s i q
    { x with s := s }
  | .addPockets i q =>
    let (p, ctr, _) := addItemToPockets x.p x.ctr i q
    { x with p := p, ctr := ctr }
  | .removePockets i q =>
    let (p, _) := removeItemFromPockets x.p i q
    { x with p := p }

def applyInvOps (x : InvState) (ops : List InvOp) : InvState :=
  ops.foldl applyInvOp x

/-! ## Claim-side formula and concrete scenarios

The `spec...` definition below is written from the specification's words (for
the refinement comparison of claim C3); everything else is from the source. -/

/-- Modelled from the spec (§4.6 steps 4–5, claim C3): each yield amount is the
uniform roll times the tile's per-item biome multiplier (when present) times
`yieldMultiplier = paceYield × (1 + skillLevel×0.04) × (1 + toolTier×0.05) ×
(1 − moralePenalty)`, floored to an integer. -/
def specYieldAmountC3 (roll : ℤ) (biomeMult : Option ℚ) (paceYield : ℚ)
    (skillLevel : Nat) (toolTier : ℤ) (moralePenalty : ℚ) : ℤ :=
  let yieldMultiplier := paceYield * (1 + (skillLevel : ℚ) * (4/100)) *
    (1 + (toolTier : ℚ) * (5/100)) * (1 - moralePenalty)
  jsFloor ((roll : ℚ) * (biomeMult.getD 1) * yieldMultiplier)

/-- The per-yield amount the source's normal branch actually computes (the
body of the yield loop, lines binding the branch-local `yieldMult`):
`Math.max(0, Math.floor((ceil-scaled roll) × clamp(1 + toolTier×0.15 +
skill×0.02, 0.5, 3.5)))` — no pace or morale factor. -/
def normalYieldAmount (roll : ℤ) (biomeMult : Option ℚ) (toolTier : ℤ)
    (skill : Nat) : ℤ :=
  let q : ℤ :=
    match biomeMult with
    | some m => if m ≠ 0 then jsCeil ((roll : ℚ) * m) else roll
    | none => roll
  max 0 (jsFloor ((q : ℚ) * jsClamp (1 + (toolTier : ℚ) * (15/100) + (skill : ℚ) * (2/100))
    (1/2) (7/2)))

/-- An already-discovered tile used by the resolution scenarios. -/
def scnTile : Tile :=
  { tileId := "tile_a", biomeId := some "wild_forest", createdAt := 0,
    tutorialOverlay := true }

/-- Scenario state skeleton: one crew member, tutorial done, `tile_a`
discovered and current, all stations at level 0. -/
def scnState (member : Character) (lastSimAt : ℚ) (storage : RvStorage)
    (queue : List JobEntry) : GState :=
  { meta := { createdAt := 0, lastSimAt := lastSimAt, timeOffsetMs := 0,
              tutorialDone := true, lastTileId := some "tile_a" },
    discoveredTiles := [("tile_a", scnTile)],
    stations := allStations.map (fun s => (s.id, 0)),
    storage := storage,
    members := [member],
    jobsByCharId := [(member.id, queue)] }

/-- Claim C2's crew member: Wilderness 2, Grit 2, Medical 1; thirst 52 so the
forage drain (2.8) lands it at 49.2 ≤ 50, triggering auto-drink. -/
def c2Char : Character :=
  { id := "crewA",
    stats := { wilderness := 2, scavenge := 1, mechanics := 1, cooking := 1,
               medical := 1, grit := 2 },
    needs := { hunger := 80, thirst := 52, morale := 70, health := 100 },
    pockets := { capacity := 6 } }

/-- Claim C2's snapshot: only dirty water in storage, so the auto-drink rolls
dirty-water sickness on the global random source. -/
def c2State : GState :=
  scnState c2Char 1000000
    { capacity := 60, stackList := [{ itemId := "water_dirty", qty := 1 }] } []

/-- Claim C2's job entry (normal-pace forage, 10 minutes).  Its id was chosen
so that the seeded minor-injury roll (the fifth draw, ≈0.0352) falls between
the healthy minor-injury chance (0.03) and the sick one (0.036). -/
def c2Entry : JobEntry :=
  { id := "e438", jobId := "forage", pace := "normal", createdAt := 0,
    startAt := some 400000, durationMs := 600000, toolOk := false,
    tileId := some "tile_a" }

/-- Claim C3's crew member: all stats zero so the branch-local skill term
vanishes. -/
def c3Char : Character :=
  { id := "crewA", stats := {}, needs := {}, pockets := { capacity := 6 } }

def c3State : GState := scnState c3Char 2000000 { capacity := 60 } []

/-- Claim C3's entry: hunt at the given pace with the safe-pace duration
(`round(1200 × 1.1) × 1000`); its id makes the meat roll come out 2. -/
def c3Entry (pace : String) : JobEntry :=
  { id := "h0", jobId := "hunt", pace := pace, createdAt := 0, startAt := some 0,
    durationMs := 1320000, toolOk := false, tileId := some "tile_a" }

/-- Claim C5's entries: A runs 10 s from t = 0; B (20 s) is queued unstarted. -/
def c5EntryA : JobEntry :=
  { id := "A", jobId := "forage", pace := "normal", createdAt := 0,
    startAt := some 0, durationMs := 10000, toolOk := false, tileId := none }

def c5EntryB : JobEntry :=
  { id := "B", jobId := "forage", pace := "normal", createdAt := 0,
    startAt := none, durationMs := 20000, toolOk := false, tileId := none }

def c5State : GState :=
  scnState c2Char 0 { capacity := 60 } [c5EntryA, c5EntryB]

/-- Claim C6's state: 5 fiber in storage, capacity 60. -/
def c6State : GState :=
  scnState c3Char 0
    { capacity := 60, stackList := [{ itemId := "fiber", qty := 5 }] } []

/-- Claim C6's full-storage state: capacity 3, exactly 3 fiber stored. -/
def c6FullState : GState :=
  scnState c3Char 0
    { capacity := 3, stackList := [{ itemId := "fiber", qty := 3 }] } []

/-- Claim C10's explore entry (no action job chosen); its id makes the seeded
extra-injury roll (≈0.075) pass the 0.08 chance. -/
def c10Entry : JobEntry :=
  { id := "x0", jobId := "explore", pace := "normal", createdAt := 0,
    startAt := some 0, durationMs := 1500000, toolOk := false,
    tileId := some "tile_a", meta := some (.explore none "N" []) }

def c10State : GState :=
  scnState c2Char 3000000 { capacity := 60 } [c10Entry]

/-! # Theorems -/

/-- Claim C1 (code_bug evidence): `startJobForChar` never returns the claimed
success outcome — on the default new-game state, for the existing, non-downed
player and the known job `forage` (no `requiresItem`), the call throws a
ReferenceError (the entry literal reads the undeclared `recipe`), so no entry
is appended to the job queue and no success result is produced. -/
theorem C1_startJobForChar_throws :
    (alist.lookup (defaultNewGameState 0).jobsByCharId "player_0" = some []) ∧
    ((defaultNewGameState 0).members.map Character.id = ["player_0"]) ∧
    ((defaultNewGameState 0).members.map (fun c => c.conditions.downed) = [false]) ∧
    startJobForChar (defaultNewGameState 0) 0 "player_0" "forage" "normal" none =
      .error (.referenceError "recipe is not defined") := by
  refine ⟨by decide!, by decide!, by decide!, ?_⟩
  decide!

/-- Claim C1 (supporting): for every state and every argument list, a normal
return of `startJobForChar` is a validation failure — the `{ ok: true }` path
is unreachable because the entry literal throws first. -/
theorem startJobForChar_no_success (st : GState) (now : ℚ) (charId jobId pace : String)
    (opts : Option StartJobOpts) (st' : GState) (res : JsRes) :
    startJobForChar st now charId jobId pace opts = .ok (st', res) → res.ok = false := by
  unfold startJobForChar
  intro h
  repeat' split at h
  all_goals (cases h <;> rfl)

/-- Claim C3 (counterexample): resolving the safe-pace hunt in `c3State` rolls
a raw amount of 2 and stores 2 raw meat, while the claim's formula
`⌊roll × biomeMult × paceYield × (1+skill×0.04) × (1+toolTier×0.05) ×
(1−moralePenalty)⌋` gives `⌊2 × 0.9⌋ = 1` at the same inputs (roll 2, no biome
multiplier, skill 0, tool tier 0, morale penalty 0): the stored amount is not
the claimed one. -/
theorem C3_yield_formula_counterexample :
    (randInt (rngNext (resolveSeed c3State 2000000 "h0")).2 1 3 = 2) ∧
    ((getStack (resolveJobCompletion c3State c3Char 2000000 (jobsById "hunt")
        (c3Entry "safe") []).st.storage.stackList "meat_raw").map Stack.qty = some 2) ∧
    specYieldAmountC3 2 none (paceMultipliers "safe").yld 0 0 0 = 1 ∧
    some (2 : Nat) ≠ some (1 : Nat) := by
  refine ⟨by decide!, by decide!, by decide!, by decide⟩

/-- Claim C3 (amended, universal): (1) for every yield entry that passes its
chance roll — any chance, biome multiplier, tool tier, skill level, state, rng
and remaining entries — the yield loop run with the normal branch's multiplier
stores and collects exactly `normalYieldAmount roll mult toolTier skill` =
`max(0, ⌊(biome-ceiled roll) × clamp(1 + toolTier×0.15 + skill×0.02, 0.5,
3.5)⌋)` units of the entry's item (and skips the storage add when that amount
is 0); (2) for every normal (meta-free) job entry, `resolveAfterConsume`
factors as `resolveNormalTail` applied to the yield loop called with exactly
that branch-local multiplier, built from `getToolTierForJob` and
`effectiveSkill` — the loop's arguments mention neither the entry (hence not
its pace) nor the character's moodlets, and every pace- and morale-dependent
computation (risk, wear, XP) runs strictly after the loop's output is fixed;
(3) explicitly, replacing the character's moodlets by an arbitrary list never
changes the yield loop's result. -/
theorem C3_yield_formula_amended :
    (∀ (tag : String) (collect : Bool) (biome : Option BiomeDef) (toolTier : ℤ)
        (skill : Nat) (st : GState) (rng : Rng) (y : YieldEntry)
        (rest : List YieldEntry),
      (if (y.chance.getD 1) < 1 then
          decide ((y.chance.getD 1) < (rngNext rng).2) else false) = false →
      yieldRollLoop tag collect biome
          (jsClamp (1 + (toolTier : ℚ) * (15/100) + (skill : ℚ) * (2/100)) (1/2) (7/2))
          st rng (y :: rest) =
        (let rng1 := if (y.chance.getD 1) < 1 then (rngNext rng).1 else rng
         let amount : ℤ := normalYieldAmount (randInt (rngNext rng1).2 y.min y.max)
           (biome.bind (fun b => alist.lookup b.yieldMult y.id)) toolTier skill
         if 0 < amount then
           let add := stAddItem st y.id amount.toNat
           if add.2.ok then
             let out := yieldRollLoop tag collect biome
               (jsClamp (1 + (toolTier : ℚ) * (15/100) + (skill : ℚ) * (2/100)) (1/2) (7/2))
               add.1 (rngNext rng1).1 rest
             (out.1, out.2.1, if collect then (y.id, amount.toNat) :: out.2.2 else out.2.2)
           else (pushLog add.1 "warn" tag, (rngNext rng1).1, [])
         else
           yieldRollLoop tag collect biome
             (jsClamp (1 + (toolTier : ℚ) * (15/100) + (skill : ℚ) * (2/100)) (1/2) (7/2))
             st (rngNext rng1).1 rest)) ∧
    (∀ (st : GState) (c : Character) (now : ℚ) (job : JobDef) (e : JobEntry)
        (tile : Tile) (rng : Rng) (mins : ℚ),
      e.meta = none →
      resolveAfterConsume st c now job e tile rng mins =
        resolveNormalTail c now job e mins
          (yieldRollLoop "storage.full.yields" true (tile.biomeId.bind biomesById)
            (jsClamp (1 + (getToolTierForJob c job : ℚ) * (15/100) +
              (((match job.xpSkill with
                 | some s => effectiveSkill c s
                 | none => 0) : Nat) : ℚ) * (2/100)) (1/2) (7/2))
            st rng job.yields)) ∧
    (∀ (c : Character) (ms : List Moodlet) (job : JobDef) (tile : Tile)
        (st : GState) (rng : Rng),
      yieldRollLoop "storage.full.yields" true (tile.biomeId.bind biomesById)
          (jsClamp (1 + (getToolTierForJob { c with moodlets := ms } job : ℚ) * (15/100) +
            (((match job.xpSkill with
               | some s => effectiveSkill { c with moodlets := ms } s
               | none => 0) : Nat) : ℚ) * (2/100)) (1/2) (7/2))
          st rng job.yields =
        yieldRollLoop "storage.full.yields" true (tile.biomeId.bind biomesById)
          (jsClamp (1 + (getToolTierForJob c job : ℚ) * (15/100) +
            (((match job.xpSkill with
               | some s => effectiveSkill c s
               | none => 0) : Nat) : ℚ) * (2/100)) (1/2) (7/2))
          st rng job.yields) := by
  refine ⟨?_, ?_, ?_⟩
  · intro tag collect biome toolTier skill st rng y rest hpass
    by_cases hc : (y.chance.getD 1) < 1
    · rw [if_pos hc] at hpass
      rcases h1 : rngNext rng with ⟨rsA, rvA⟩
      rw [h1] at hpass
      dsimp only at hpass
      simp only [yieldRollLoop, if_pos hc, h1]
      simp only [hpass, Bool.false_eq_true, if_false]
      rcases h2 : rngNext rsA with ⟨rsB, rvB⟩
      simp only [h2, normalYieldAmount]
    · simp only [yieldRollLoop, if_neg hc]
      rcases h2 : rngNext rng with ⟨rsB, rvB⟩
      simp only [h2, normalYieldAmount]
      rfl
  · intro st c now job e tile rng mins he
    set_option maxHeartbeats 4000000 in
    (unfold resolveAfterConsume resolveNormalTail
     rw [he]
     dsimp only
     rfl)
  · intro c ms job tile st rng
    rfl

/-- Witness for `C3_yield_formula_amended`: instantiates (1) at a meat yield
entry with no chance gate, no biome multiplier, tier 0, skill 0 on the C3
state (the collected gain is the formula's amount for the concrete roll);
(2) at the meta-free safe-pace hunt entry of the C3 scenario; (3) at a
concrete −5-morale moodlet list on the C3 crew member. -/
theorem C3_yield_formula_amended_witness :
    ((if (((⟨"meat_raw", 1, 3, none⟩ : YieldEntry)).chance.getD 1) < 1 then
        decide ((((⟨"meat_raw", 1, 3, none⟩ : YieldEntry)).chance.getD 1) <
          (rngNext 7).2) else false) = false) ∧
    ((yieldRollLoop "storage.full.yields" true none
        (jsClamp (1 + ((0 : ℤ) : ℚ) * (15/100) + ((0 : Nat) : ℚ) * (2/100)) (1/2) (7/2))
        c3State 7 [⟨"meat_raw", 1, 3, none⟩]).2.2 =
      [("meat_raw", (normalYieldAmount (randInt (rngNext 7).2 1 3) none 0 0).toNat)]) ∧
    ((c3Entry "safe").meta = none) ∧
    (resolveAfterConsume c3State c3Char 2000000 ((jobsById "hunt").getD { id := "" })
        (c3Entry "safe") scnTile (resolveSeed c3State 2000000 "h0") 22 =
      resolveNormalTail c3Char 2000000 ((jobsById "hunt").getD { id := "" })
        (c3Entry "safe") 22
        (yieldRollLoop "storage.full.yields" true (scnTile.biomeId.bind biomesById)
          (jsClamp (1 + ((getToolTierForJob c3Char ((jobsById "hunt").getD { id := "" })) : ℚ) * (15/100) +
            (((match ((jobsById "hunt").getD { id := "" }).xpSkill with
               | some s => effectiveSkill c3Char s
               | none => 0) : Nat) : ℚ) * (2/100)) (1/2) (7/2))
          c3State (resolveSeed c3State 2000000 "h0")
          ((jobsById "hunt").getD { id := "" }).yields)) ∧
    (yieldRollLoop "storage.full.yields" true (scnTile.biomeId.bind biomesById)
        (jsClamp (1 + ((getToolTierForJob { c3Char with moodlets := [⟨"m_test", 0, -5⟩] }
            ((jobsById "hunt").getD { id := "" })) : ℚ) * (15/100) +
          (((match ((jobsById "hunt").getD { id := "" }).xpSkill with
             | some s => effectiveSkill { c3Char with moodlets := [⟨"m_test", 0, -5⟩] } s
             | none => 0) : Nat) : ℚ) * (2/100)) (1/2) (7/2))
        c3State 7 ((jobsById "hunt").getD { id := "" }).yields =
      yieldRollLoop "storage.full.yields" true (scnTile.biomeId.bind biomesById)
        (jsClamp (1 + ((getToolTierForJob c3Char ((jobsById "hunt").getD { id := "" })) : ℚ) * (15/100) +
          (((match ((jobsById "hunt").getD { id := "" }).xpSkill with
             | some s => effectiveSkill c3Char s
             | none => 0) : Nat) : ℚ) * (2/100)) (1/2) (7/2))
        c3State 7 ((jobsById "hunt").getD { id := "" }).yields) := by
  refine ⟨by decide!, ?_, by decide!, ?_, ?_⟩
  · have h := C3_yield_formula_amended.1 "storage.full.yields" true none 0 0 c3State 7
      ⟨"meat_raw", 1, 3, none⟩ [] (by decide!)
    rw [h]
    decide!
  · exact C3_yield_formula_amended.2.1 c3State c3Char 2000000
      ((jobsById "hunt").getD { id := "" }) (c3Entry "safe") scnTile
      (resolveSeed c3State 2000000 "h0") 22 (by decide!)
  · exact C3_yield_formula_amended.2.2 c3Char [⟨"m_test", 0, -5⟩]
      ((jobsById "hunt").getD { id := "" }) scnTile c3State 7

/-- Claim C5: with A (10 s, running from t = 0) and B (20 s, queued) on the
queue, one tick at virtual time 31000 completes both; the recorded run windows
are A: [0, 10000] and B: [10000, 30000] — B starts exactly at A's end time
(10000), not at virtual-now (31000) nor at its enqueue time — and the queue is
left empty. -/
theorem C5_queue_chaining :
    (tickJobQueuesChar c5State 31000 "crewA" []).toOption.map
      (fun r => (r.2.2, alist.lookup r.1.jobsByCharId "crewA")) =
    some ([⟨"A", 0, 10000⟩, ⟨"B", 10000, 30000⟩], some []) := by
  decide!

/-- Claim C6: starting the cordage craft (3 fiber) deducts the 3 fiber from
storage at enqueue time and queues the entry; cancelling it restores exactly
the 3 fiber (5 again from 2) and empties the queue.  When the refund does not
fit (capacity 3, filled by 3 stone after the craft started), the cancel still
succeeds, the refund is dropped, and a `craft.refund.full` line is logged —
no exception is possible (the function is total). -/
theorem C6_craft_inputs_reserved_and_refunded :
    ((startCraft c6State 0 "cordage").2.ok = true) ∧
    ((getStack (startCraft c6State 0 "cordage").1.storage.stackList "fiber").map Stack.qty
      = some 2) ∧
    ((alist.lookup (startCraft c6State 0 "cordage").1.craftsByStationId "workbench").map
      (fun q => q.map (fun e => (e.recipeId, e.startAt))) = some [("cordage", some 0)]) ∧
    ((cancelCraftEntry (startCraft c6State 0 "cordage").1 0 "workbench" "craft_0").2.ok
      = true) ∧
    ((getStack (cancelCraftEntry (startCraft c6State 0 "cordage").1 0 "workbench"
        "craft_0").1.storage.stackList "fiber").map Stack.qty = some 5) ∧
    ((alist.lookup (cancelCraftEntry (startCraft c6State 0 "cordage").1 0 "workbench"
        "craft_0").1.craftsByStationId "workbench") = some []) ∧
    ((cancelCraftEntry (stAddItem (startCraft c6FullState 0 "cordage").1 "stone" 3).1
        0 "workbench" "craft_0").2.ok = true) ∧
    ((getStack (cancelCraftEntry (stAddItem (startCraft c6FullState 0 "cordage").1
        "stone" 3).1 0 "workbench" "craft_0").1.storage.stackList "fiber") = none) ∧
    ((cancelCraftEntry (stAddItem (startCraft c6FullState 0 "cordage").1 "stone" 3).1
        0 "workbench" "craft_0").1.log.contains ⟨"bad", "craft.refund.full"⟩ = true) := by
  refine ⟨by decide!, by decide!, by decide!, by decide!, by decide!, by decide!,
    by decide!, by decide!, by decide!⟩

/-- Claim C9: the state returned by new-game construction has an empty shared
storage — stacks and instances both empty even though capacity ends up 60 —
because each starter-supply add runs while `capacity` is still 0 (set only by
the later `recomputeDerivedStats`) and is rejected as "storage full" with no
effect. -/
theorem C9_starter_supplies_rejected :
    ((defaultNewGameState 0).storage.stackList = []) ∧
    ((defaultNewGameState 0).storage.instances = []) ∧
    ((defaultNewGameState 0).storage.capacity = 60) ∧
    ((newGameBaseState 0).storage.capacity = 0) ∧
    (stAddItem (newGameBaseState 0) "ration_basic" 4 (some true) =
      (newGameBaseState 0, { ok := false, reason := "storage full" })) ∧
    ((stAddItem (newGameBaseState 0) "water_clean" 4).2 =
      { ok := false, reason := "storage full" }) ∧
    ((stAddItem (newGameBaseState 0) "water_dirty" 1).2 =
      { ok := false, reason := "storage full" }) ∧
    ((stAddItem (newGameBaseState 0) "bottle_empty" 1).2 =
      { ok := false, reason := "storage full" }) := by
  refine ⟨by decide!, by decide!, by decide!, by decide!, by decide!, by decide!,
    by decide!, by decide!⟩

/-- Claim C10 (counterexample): in `c10State` the explore entry's extra
minor-injury roll passes (the second seeded draw ≈0.075 < the 0.08 chance),
yet the resolved character has NO injury at all — `applyInjury` is invoked
without a name, `hashStringToUint(undefined)` throws before the injury is
assigned, and the TypeError escapes the resolution — contradicting the claim
that such a roll inflicts an injury whose expiry never fires. -/
theorem C10_explore_injury_counterexample :
    ((rngNext (rngNext (resolveSeed c10State 3000000 "x0")).1).2 < 2/25) ∧
    (jsClamp (10/100 - (effectiveSkill c2Char .grit : ℚ) * (1/100)) (2/100) (12/100)
      = 2/25) ∧
    ((resolveJobCompletion c10State c2Char 3000000 (jobsById "explore") c10Entry
      []).c.conditions.injury = none) ∧
    ((resolveJobCompletion c10State c2Char 3000000 (jobsById "explore") c10Entry
      []).err = some (.typeError "undefined has no length")) := by
  refine ⟨by decide!, by decide!, by decide!, by decide!⟩

/-- Claim C10 (amended): the explore variant's extra minor-injury roll never
inflicts an injury: `applyInjury` invoked without a name always throws before
assigning the injury (first conjunct, for every state/character/severity); in
the concrete passing-roll scenario the character ends with no injury, and the
exception is caught at the job-tick boundary, which still pops the entry and
logs a completion error. -/
theorem C10_explore_injury_amended :
    (∀ (st : GState) (c : Character) (now : ℚ) (severity : String),
      applyInjury st c now severity none none =
        .error (.typeError "undefined has no length")) ∧
    ((resolveJobCompletion c10State c2Char 3000000 (jobsById "explore") c10Entry
      []).c.conditions.injury = none) ∧
    ((tickJobQueuesChar c10State 3000000 "crewA" []).toOption.map (fun r =>
        (alist.lookup r.1.jobsByCharId "crewA",
         r.1.members.map (fun m => m.conditions.injury),
         r.1.log.contains ⟨"warn", "job.completion.error"⟩)) =
      some (some [], [none], true)) := by
  refine ⟨fun st c now severity => rfl, by decide!, by decide!⟩

/-- When both needs sit strictly above the auto-consume threshold,
`maybeAutoConsume` does nothing — in particular it consults no
`Math.random()` value. -/
theorem maybeAutoConsume_skip (st : GState) (c : Character) (now : ℚ) (o : List ℚ)
    (h1 : cfgAutoConsumeThreshold < c.needs.thirst)
    (h2 : cfgAutoConsumeThreshold < c.needs.hunger) :
    maybeAutoConsume st c now o = (st, c, o) := by
  unfold maybeAutoConsume autoDrinkStep autoEatStep
  by_cases hd : c.conditions.downed
  · simp [hd]
  · simp [hd, not_le.mpr h1, not_le.mpr h2]

/-- Claim C2 (amended): job resolution is a function of the snapshot alone —
the seeded per-entry rng covers every draw after auto-consumption — PROVIDED
the resolution's auto-consume step does not fire (here: both drained needs are
above the threshold).  Under that proviso, two runs with arbitrary, different
global-random oracles produce identical final state, character (hence yields,
injuries, sickness and XP) and exception outcome. -/
theorem C2_resolution_deterministic_amended (st : GState) (c : Character) (now : ℚ)
    (job : JobDef) (e : JobEntry) (o1 o2 : List ℚ)
    (ht : cfgAutoConsumeThreshold < (drainedByJob c job e).needs.thirst)
    (hh : cfgAutoConsumeThreshold < (drainedByJob c job e).needs.hunger) :
    (resolveJobCompletion st c now (some job) e o1).st =
      (resolveJobCompletion st c now (some job) e o2).st ∧
    (resolveJobCompletion st c now (some job) e o1).c =
      (resolveJobCompletion st c now (some job) e o2).c ∧
    (resolveJobCompletion st c now (some job) e o1).err =
      (resolveJobCompletion st c now (some job) e o2).err := by
  unfold resolveJobCompletion
  rcases hrp : resolveTilePart st now with ⟨st1, tile⟩
  dsimp only
  rw [maybeAutoConsume_skip st1 (drainedByJob c job e) now o1 ht hh,
    maybeAutoConsume_skip st1 (drainedByJob c job e) now o2 ht hh]
  exact ⟨rfl, rfl, rfl⟩

/-- Witness for `C2_resolution_deterministic_amended`: the safe-pace hunt
scenario keeps both drained needs above the threshold, and its resolution is
identical under the global draws 0 and 7/10. -/
theorem C2_resolution_deterministic_amended_witness :
    (cfgAutoConsumeThreshold <
      (drainedByJob c3Char ((jobsById "hunt").getD { id := "" })
        (c3Entry "safe")).needs.thirst) ∧
    (cfgAutoConsumeThreshold <
      (drainedByJob c3Char ((jobsById "hunt").getD { id := "" })
        (c3Entry "safe")).needs.hunger) ∧
    ((resolveJobCompletion c3State c3Char 2000000
        (some ((jobsById "hunt").getD { id := "" })) (c3Entry "safe") [0]).st =
     (resolveJobCompletion c3State c3Char 2000000
        (some ((jobsById "hunt").getD { id := "" })) (c3Entry "safe") [7/10]).st) :=
  ⟨by decide!, by decide!,
   (C2_resolution_deterministic_amended c3State c3Char 2000000 _ (c3Entry "safe") [0] [7/10]
     (by decide!) (by decide!)).1⟩

/-- Claim C2 (counterexample): in `c2State` the forage drain takes thirst to
49.2 ≤ 50, auto-consume drinks the only (dirty) water, and the dirty-water
sickness roll comes from the unseeded global source.  Replaying the identical
snapshot with global draw 0 versus 1/2 yields different sickness AND different
injury outcomes (the seeded minor-injury roll ≈0.0352 clears the healthy 0.03
chance but not the sick-boosted 0.036), refuting the two-run determinism
claim. -/
theorem C2_resolution_determinism_counterexample :
    ((resolveJobCompletion c2State c2Char 1000000 (jobsById "forage") c2Entry
        [0]).c.conditions.sickness ≠
     (resolveJobCompletion c2State c2Char 1000000 (jobsById "forage") c2Entry
        [1/2]).c.conditions.sickness) ∧
    ((resolveJobCompletion c2State c2Char 1000000 (jobsById "forage") c2Entry
        [0]).c.conditions.injury ≠
     (resolveJobCompletion c2State c2Char 1000000 (jobsById "forage") c2Entry
        [1/2]).c.conditions.injury) := by
  refine ⟨by decide!, by decide!⟩

/-! ## Tile idempotence (claim C7) -/

theorem alist.lookup_map_update {α : Type} (l : List (String × α)) (k : String) (v : α)
    (h : (l.find? (fun e => e.1 = k)).isSome) :
    alist.lookup (l.map (fun e => if e.1 = k then (k, v) else e)) k = some v := by
  induction l with
  | nil => simp [List.find?] at h
  | cons a tl ih =>
    by_cases ha : a.1 = k
    · simp [alist.lookup, List.find?, ha]
    · have h' : (tl.find? (fun e => e.1 = k)).isSome := by
        simpa [List.find?, ha] using h
      simpa [alist.lookup, List.find?, ha] using ih h'

theorem alist.lookup_append_single {α : Type} (l : List (String × α)) (k : String) (v : α)
    (h : l.find? (fun e => e.1 = k) = none) :
    alist.lookup (l ++ [(k, v)]) k = some v := by
  induction l with
  | nil => simp [alist.lookup, List.find?]
  | cons a tl ih =>
    by_cases ha : a.1 = k
    · simp [List.find?, ha] at h
    · have h' : tl.find? (fun e => e.1 = k) = none := by
        simpa [List.find?, ha] using h
      simpa [alist.lookup, List.find?, ha] using ih h'

/-- Inserting under key `k` makes `k` look up to the inserted value. -/
theorem alist.lookup_insert {α : Type} (l : List (String × α)) (k : String) (v : α) :
    alist.lookup (alist.insert l k v) k = some v := by
  unfold alist.insert
  by_cases h : (l.find? (fun e => e.1 = k)).isSome
  · simpa [h] using alist.lookup_map_update l k v h
  · have h' : l.find? (fun e => e.1 = k) = none := Option.not_isSome_iff_eq_none.mp h
    simpa [h] using alist.lookup_append_single l k v h'

/-- A tile id already stored is left alone by the discovery block. -/
theorem discoverTile_of_mem (st : GState) (now : ℚ) (tid : String) (t : Tile)
    (h : alist.lookup st.discoveredTiles tid = some t) :
    discoverTile st now tid = st := by
  unfold discoverTile
  simp [h]

/-- The discovery block always leaves the tile id present. -/
theorem discoverTile_lookup_isSome (st : GState) (now : ℚ) (tid : String) :
    ∃ t, alist.lookup (discoverTile st now tid).discoveredTiles tid = some t := by
  unfold discoverTile
  cases h : alist.lookup st.discoveredTiles tid with
  | some t => exact ⟨t, by simp [h]⟩
  | none =>
    simp only [h]
    exact ⟨_, alist.lookup_insert _ _ _⟩

/-- The tutorial-overlay block keeps the stored tile's biome: the tile stays
present and its `biomeId` is unchanged (the overlay update touches only
`tutorialOverlay`/`encounter`). -/
theorem tutorialOverlayStep_biomeId (st : GState) (tid : String) (t : Tile)
    (h : alist.lookup st.discoveredTiles tid = some t) :
    ∃ t', alist.lookup (tutorialOverlayStep st tid).discoveredTiles tid = some t' ∧
      t'.biomeId = t.biomeId := by
  unfold tutorialOverlayStep
  by_cases hd : st.meta.tutorialDone
  · exact ⟨t, by simp [hd, h], rfl⟩
  · simp only [hd, Bool.false_eq_true, if_false]
    by_cases hf : tid = (match st.meta.firstTileId with
      | some f => if f ≠ "" then f else tid
      | none => tid)
    · rw [if_pos hf]
      rw [show alist.lookup st.discoveredTiles tid = some t from h]
      by_cases ho : t.tutorialOverlay
      · exact ⟨t, by simp [ho, h], rfl⟩
      · refine ⟨{ t with tutorialOverlay := true, encounter := some "npc_scavenger" }, ?_, rfl⟩
        simp [ho, pushLog, alist.lookup_insert]
    · exact ⟨t, by rw [if_neg hf]; exact h, rfl⟩

/-- Claim C7: `getOrCreateTile` is idempotent on the biome — for any state,
tile id and call times, a second call for an already-discovered tile returns a
tile with the same `biomeId` as the first call; the biome is never re-rolled. -/
theorem C7_getOrCreateTile_idempotent (st : GState) (now now2 : ℚ) (tid : String) :
    ((getOrCreateTile (getOrCreateTile st now tid).1 now2 tid).2).biomeId =
      ((getOrCreateTile st now tid).2).biomeId := by
  obtain ⟨t, ht⟩ := discoverTile_lookup_isSome st now tid
  obtain ⟨t1, ht1, hb1⟩ := tutorialOverlayStep_biomeId (discoverTile st now tid) tid t ht
  have hfst : (getOrCreateTile st now tid).1 = tutorialOverlayStep (discoverTile st now tid) tid := rfl
  have hsnd : (getOrCreateTile st now tid).2 =
      (alist.lookup (tutorialOverlayStep (discoverTile st now tid) tid).discoveredTiles tid).getD
        { tileId := tid, biomeId := none, createdAt := 0 } := rfl
  have h1 : (getOrCreateTile st now tid).2 = t1 := by rw [hsnd, ht1]; rfl
  have hD2 : discoverTile (getOrCreateTile st now tid).1 now2 tid =
      (getOrCreateTile st now tid).1 := by
    apply discoverTile_of_mem _ _ _ t1
    rw [hfst]; exact ht1
  obtain ⟨t2, ht2, hb2⟩ := tutorialOverlayStep_biomeId (getOrCreateTile st now tid).1 tid t1
    (by rw [hfst]; exact ht1)
  have h2 : (getOrCreateTile (getOrCreateTile st now tid).1 now2 tid).2 = t2 := by
    show (alist.lookup (tutorialOverlayStep
        (discoverTile (getOrCreateTile st now tid).1 now2 tid) tid).discoveredTiles tid).getD
        { tileId := tid, biomeId := none, createdAt := 0 } = t2
    rw [hD2, ht2]; rfl
  rw [h1, h2, hb2]

/-! ## Auto-consumption boundary (claim C8) -/

theorem applyMoodlet_needs (c : Character) (m : Moodlet) :
    (applyMoodlet c m).needs = c.needs := rfl

/-- Eating rations never changes thirst. -/
theorem consumeRationFood_thirst (st : GState) (c : Character) (now : ℚ) (o : List ℚ) :
    (consumeRationFood st c now o).2.1.needs.thirst = c.needs.thirst := by
  unfold consumeRationFood
  dsimp only
  repeat' split
  all_goals simp [applyMoodlet, applySickness]

/-- The auto-eat block never changes thirst. -/
theorem autoEatStep_thirst (st : GState) (c : Character) (now : ℚ) (o : List ℚ) :
    (autoEatStep st c now o).2.1.needs.thirst = c.needs.thirst := by
  unfold autoEatStep
  split
  · have h := consumeRationFood_thirst st c now o
    rcases hcr : consumeRationFood st c now o with ⟨st2, c2, o2, ate⟩
    rw [hcr] at h
    cases ate
    · simpa [applyMoodlet] using h
    · simpa using h
  · rfl

/-- Claim C8: auto-consumption triggers exactly at the configured threshold.
(1) A non-downed character at or below the threshold with clean water in
storage auto-drinks it — thirst rises by clean water's 18 (dirty would give
12, so clean is preferred whenever present).  (2) One unit above the
threshold, `maybeAutoConsume` does nothing at all.  (3) At or below the
threshold with no water of either kind, the "Parched" −8 moodlet is applied
and the function returns normally instead of blocking. -/
theorem C8_auto_consume_threshold :
    (∀ (st : GState) (c : Character) (now : ℚ) (o : List ℚ),
      c.conditions.downed = false → 0 ≤ c.needs.thirst →
      c.needs.thirst ≤ cfgAutoConsumeThreshold →
      hasItemInStorage st.storage "water_clean" 1 = true →
      (maybeAutoConsume st c now o).2.1.needs.thirst = c.needs.thirst + 18) ∧
    (∀ (st : GState) (c : Character) (now : ℚ) (o : List ℚ),
      cfgAutoConsumeThreshold + 1 ≤ c.needs.thirst →
      cfgAutoConsumeThreshold < c.needs.hunger →
      maybeAutoConsume st c now o = (st, c, o)) ∧
    (∀ (st : GState) (c : Character) (now : ℚ) (o : List ℚ),
      c.conditions.downed = false →
      c.needs.thirst ≤ cfgAutoConsumeThreshold →
      hasItemInStorage st.storage "water_clean" 1 = false →
      hasItemInStorage st.storage "water_dirty" 1 = false →
      cfgAutoConsumeThreshold < c.needs.hunger →
      maybeAutoConsume st c now o =
        (st, applyMoodlet c
          { id := "m_parched", endsAt := gameNow st now + 60 * 60 * 1000,
            moraleDelta := -8 }, o)) := by
  refine ⟨?_, ?_, ?_⟩
  · intro st c now o hd h0 ht hclean
    have hw : (itemsById "water_clean").bind (fun d => d.water) =
        some ⟨18, 0, false⟩ := by decide!
    have h100 : c.needs.thirst + 18 ≤ 100 := by
      unfold cfgAutoConsumeThreshold at ht; linarith
    have hcl : jsClamp (c.needs.thirst + 18) 0 100 = c.needs.thirst + 18 := by
      unfold jsClamp
      rw [min_eq_right h100, max_eq_right (by linarith)]
    unfold maybeAutoConsume autoDrinkStep consumeBestWater
    simp only [hd, Bool.false_eq_true, if_false, if_pos ht, List.filter, hclean]
    simp only [List.head?_cons, hw, Option.map_some, Option.map_some', Option.getD_some]
    simp only [Bool.false_eq_true, if_false, if_true, hcl]
    rw [autoEatStep_thirst]
  · intro st c now o ht hh
    exact maybeAutoConsume_skip st c now o
      ((lt_add_one cfgAutoConsumeThreshold).trans_le ht) hh
  · intro st c now o hd ht hc hdw hh
    unfold maybeAutoConsume autoDrinkStep consumeBestWater autoEatStep
    simp only [hd, Bool.false_eq_true, if_false, if_pos ht, List.filter, hc, hdw]
    simp only [List.head?, Bool.false_eq_true, if_false, applyMoodlet_needs, not_le.mpr hh]

/-- Witness scenarios for C8: a character exactly at the threshold, one a unit
above, a storage with clean water, and a dry storage. -/
def c8Char : Character :=
  { id := "crewA", stats := {}, needs := { thirst := 50 }, pockets := { capacity := 6 } }

def c8CharAbove : Character :=
  { id := "crewA", stats := {}, needs := { thirst := 51 }, pockets := { capacity := 6 } }

def c8WaterState : GState :=
  scnState c8Char 0
    { capacity := 60, stackList := [{ itemId := "water_clean", qty := 2 },
      { itemId := "water_dirty", qty := 2 }] } []

def c8DryState : GState := scnState c8Char 0 { capacity := 60 } []

/-- Witness for `C8_auto_consume_threshold`: at thirst exactly 50 the clean
water is drunk (thirst 68); at 51 nothing happens; with no water the Parched
moodlet is applied. -/
theorem C8_auto_consume_threshold_witness :
    ((maybeAutoConsume c8WaterState c8Char 0 []).2.1.needs.thirst =
      c8Char.needs.thirst + 18) ∧
    (maybeAutoConsume c8WaterState c8CharAbove 0 [] = (c8WaterState, c8CharAbove, [])) ∧
    (maybeAutoConsume c8DryState c8Char 0 [] =
      (c8DryState, applyMoodlet c8Char
        { id := "m_parched", endsAt := gameNow c8DryState 0 + 60 * 60 * 1000,
          moraleDelta := -8 }, [])) :=
  ⟨C8_auto_consume_threshold.1 c8WaterState c8Char 0 [] rfl (by decide!) (by decide!)
      (by decide!),
   C8_auto_consume_threshold.2.1 c8WaterState c8CharAbove 0 [] (by decide!) (by decide!),
   C8_auto_consume_threshold.2.2 c8DryState c8Char 0 [] rfl (by decide!) (by decide!)
      (by decide!) (by decide!)⟩


theorem foldl_qty (l : List Stack) (a : Nat) :
    l.foldl (fun a st => a + st.qty) a = a + (l.map Stack.qty).sum := by
  induction l generalizing a with
  | nil => simp
  | cons s tl ih => simp [List.foldl, ih]; omega

theorem countStorageUsed_eq (s : RvStorage) :
    countStorageUsed s = (s.stackList.map Stack.qty).sum + s.instances.length := by
  unfold countStorageUsed
  rw [foldl_qty]
  omega

theorem countPocketsUsed_eq (p : Pockets) :
    countPocketsUsed p = (p.stackList.map Stack.qty).sum + p.instances.length := by
  unfold countPocketsUsed
  rw [foldl_qty]
  omega

theorem makeInstances_len (ctr : Nat) (d : ItemDef) (n : Nat) :
    (makeInstances ctr d n).2.length = n := by
  induction n generalizing ctr with
  | zero => rfl
  | succ m ih => simp [makeInstances, ih]

theorem removeInstancesGo_length (i : String) (n : Nat) (l : List Instance) :
    (removeInstancesGo i n l).1.length ≤ l.length := by
  induction l generalizing n with
  | nil => cases n <;> simp [removeInstancesGo]
  | cons a tl ih =>
    cases n with
    | zero => simp [removeInstancesGo]
    | succ m =>
      have h := ih (m + 1)
      simp only [removeInstancesGo]
      rcases hr : removeInstancesGo i (m + 1) tl with ⟨rest2, k⟩
      rw [hr] at h
      split <;> simp_all <;> omega

theorem updateFirstStack_sum_add (l : List Stack) (i : String) (q : Nat)
    (h : (getStack l i).isSome) :
    ((updateFirstStack l i (fun st => { st with qty := st.qty + q })).map Stack.qty).sum =
      (l.map Stack.qty).sum + q := by
  induction l with
  | nil => simp [getStack, List.find?] at h
  | cons a tl ih =>
    by_cases ha : a.itemId = i
    · simp [updateFirstStack, ha]; omega
    · have h2 : (getStack tl i).isSome := by simpa [getStack, List.find?, ha] using h
      simp [updateFirstStack, ha, ih h2]; omega

theorem updateFirstStack_sum_le (l : List Stack) (i : String) (f : Stack → Stack)
    (hf : ∀ s, (f s).qty ≤ s.qty) :
    ((updateFirstStack l i f).map Stack.qty).sum ≤ (l.map Stack.qty).sum := by
  induction l with
  | nil => simp [updateFirstStack]
  | cons a tl ih =>
    by_cases ha : a.itemId = i
    · have := hf a; simp [updateFirstStack, ha]; omega
    · simp [updateFirstStack, ha]; omega

theorem updateFirstStack_sum_eq (l : List Stack) (i : String) (f : Stack → Stack)
    (hf : ∀ s, (f s).qty = s.qty) :
    ((updateFirstStack l i f).map Stack.qty).sum = (l.map Stack.qty).sum := by
  induction l with
  | nil => simp [updateFirstStack]
  | cons a tl ih =>
    by_cases ha : a.itemId = i
    · have := hf a; simp [updateFirstStack, ha]; omega
    · simp [updateFirstStack, ha]; omega

theorem filter_qty_sum_le (p : Stack → Bool) (l : List Stack) :
    ((l.filter p).map Stack.qty).sum ≤ (l.map Stack.qty).sum := by
  induction l with
  | nil => simp
  | cons a tl ih => by_cases hp : p a <;> simp [List.filter, hp] <;> omega

theorem addStackQty_shape (s : RvStorage) (d : ItemDef) (i : String) (q : Nat)
    (r : Option Bool) :
    ((addStackQty s d i q r).stackList.map Stack.qty).sum =
      (s.stackList.map Stack.qty).sum + q ∧
    (addStackQty s d i q r).instances = s.instances ∧
    (addStackQty s d i q r).capacity = s.capacity := by
  unfold addStackQty
  cases hgs : getStack s.stackList i with
  | some st0 =>
    exact ⟨updateFirstStack_sum_add s.stackList i q (by simp [hgs]), rfl, rfl⟩
  | none => simp

theorem persistRationPref_shape (s : RvStorage) (d : ItemDef) (i : String)
    (r : Option Bool) :
    ((persistRationPref s d i r).stackList.map Stack.qty).sum =
      (s.stackList.map Stack.qty).sum ∧
    (persistRationPref s d i r).instances = s.instances ∧
    (persistRationPref s d i r).capacity = s.capacity := by
  unfold persistRationPref
  repeat' split
  all_goals simp [updateFirstStack_sum_eq]

theorem addItemToStorage_spec (s : RvStorage) (ctr : Nat) (i : String) (q : Nat)
    (r : Option Bool) :
    ((addItemToStorage s ctr i q r).1.capacity = s.capacity) ∧
    ((addItemToStorage s ctr i q r).2.2.ok = true →
       countStorageUsed (addItemToStorage s ctr i q r).1 = countStorageUsed s + q ∧
       countStorageUsed s + q ≤ s.capacity) ∧
    ((addItemToStorage s ctr i q r).2.2.ok = false →
       (addItemToStorage s ctr i q r).1 = s ∧
       (addItemToStorage s ctr i q r).2.1 = ctr) ∧
    (s.capacity < countStorageUsed s + q →
       (addItemToStorage s ctr i q r).2.2.ok = false) := by
  unfold addItemToStorage
  split
  · simp
  · rename_i d hd
    dsimp only
    split
    · rename_i hfull
      simp
    · rename_i hfull
      simp only [gt_iff_lt, not_lt] at hfull
      split
      · refine ⟨rfl, ?_, ?_, ?_⟩
        · intro _
          constructor
          · simp only [countStorageUsed_eq]
            simp [makeInstances_len]
            omega
          · omega
        · intro hcontra; cases hcontra
        · intro hover; omega
      · refine ⟨?_, ?_, ?_, ?_⟩
        · exact ((persistRationPref_shape _ d i r).2.2).trans ((addStackQty_shape s d i q r).2.2)
        · intro _
          constructor
          · have h1 := addStackQty_shape s d i q r
            have h2 := persistRationPref_shape (addStackQty s d i q r) d i r
            simp only [countStorageUsed_eq]
            rw [h2.1, h1.1, h2.2.1, h1.2.1]
            omega
          · omega
        · intro hcontra; cases hcontra
        · intro hover; omega

theorem addItemToPockets_spec (p : Pockets) (ctr : Nat) (i : String) (q : Nat)
    (hpc : 0 < p.capacity) :
    ((addItemToPockets p ctr i q).1.capacity = p.capacity) ∧
    ((addItemToPockets p ctr i q).2.2.ok = true →
       countPocketsUsed (addItemToPockets p ctr i q).1 = countPocketsUsed p + q ∧
       countPocketsUsed p + q ≤ p.capacity) ∧
    ((addItemToPockets p ctr i q).2.2.ok = false →
       (addItemToPockets p ctr i q).1 = p ∧
       (addItemToPockets p ctr i q).2.1 = ctr) ∧
    (p.capacity < countPocketsUsed p + q →
       (addItemToPockets p ctr i q).2.2.ok = false) := by
  unfold addItemToPockets
  split
  · simp
  · rename_i d hd
    dsimp only
    split
    · rename_i hfull
      simp
    · rename_i hfull
      rw [not_and_or] at hfull
      have hle : countPocketsUsed p + q ≤ p.capacity := by
        rcases hfull with h | h
        · exact absurd hpc h
        · simpa using h
      split
      · refine ⟨rfl, ?_, ?_, ?_⟩
        · intro _
          refine ⟨?_, hle⟩
          simp only [countPocketsUsed_eq]
          simp [makeInstances_len]
          omega
        · intro hcontra; cases hcontra
        · intro hover; omega
      · split
        · rename_i st0 hgs
          refine ⟨rfl, ?_, ?_, ?_⟩
          · intro _
            refine ⟨?_, hle⟩
            simp only [countPocketsUsed_eq]
            rw [updateFirstStack_sum_add p.stackList i q (by simp [hgs])]
            omega
          · intro hcontra; cases hcontra
          · intro hover; omega
        · refine ⟨rfl, ?_, ?_, ?_⟩
          · intro _
            refine ⟨?_, hle⟩
            simp only [countPocketsUsed_eq]
            simp
            omega
          · intro hcontra; cases hcontra
          · intro hover; omega

theorem removeItemFromStorage_spec (s : RvStorage) (i : String) (q : Nat) :
    (removeItemFromStorage s i q).1.capacity = s.capacity ∧
    countStorageUsed (removeItemFromStorage s i q).1 ≤ countStorageUsed s := by
  unfold removeItemFromStorage
  split
  · simp
  · rename_i d hd
    split
    · rcases hri : removeInstancesFromEnd i q s.instances with ⟨insts, k⟩
      have hlen : insts.length ≤ s.instances.length := by
        have h := removeInstancesGo_length i q s.instances
        unfold removeInstancesFromEnd at hri
        rw [hri] at h
        exact h
      simp only [hri]
      refine ⟨by trivial, ?_⟩
      simp only [countStorageUsed_eq]
      omega
    · split
      · exact ⟨rfl, le_refl _⟩
      · rename_i st0 hgs
        split
        · exact ⟨rfl, le_refl _⟩
        · have hupd := updateFirstStack_sum_le s.stackList i
            (fun x => { x with qty := x.qty - q }) (fun x => by simp)
          split
          · refine ⟨rfl, ?_⟩
            simp only [countStorageUsed_eq]
            have hfil := filter_qty_sum_le (fun x => decide (0 < x.qty))
              (updateFirstStack s.stackList i (fun x => { x with qty := x.qty - q }))
            omega
          · refine ⟨rfl, ?_⟩
            simp only [countStorageUsed_eq]
            omega

theorem removeItemFromPockets_spec (p : Pockets) (i : String) (q : Nat) :
    (removeItemFromPockets p i q).1.capacity = p.capacity ∧
    countPocketsUsed (removeItemFromPockets p i q).1 ≤ countPocketsUsed p := by
  unfold removeItemFromPockets
  split
  · simp
  · rename_i d hd
    split
    · rcases hri : removeInstancesFromEnd i q p.instances with ⟨insts, k⟩
      have hlen : insts.length ≤ p.instances.length := by
        have h := removeInstancesGo_length i q p.instances
        unfold removeInstancesFromEnd at hri
        rw [hri] at h
        exact h
      simp only [hri]
      refine ⟨by trivial, ?_⟩
      simp only [countPocketsUsed_eq]
      omega
    · split
      · exact ⟨rfl, le_refl _⟩
      · rename_i st0 hgs
        split
        · exact ⟨rfl, le_refl _⟩
        · have hupd := updateFirstStack_sum_le p.stackList i
            (fun x => { x with qty := x.qty - q }) (fun x => by simp)
          split
          · refine ⟨rfl, ?_⟩
            simp only [countPocketsUsed_eq]
            have hfil := filter_qty_sum_le (fun x => decide (0 < x.qty))
              (updateFirstStack p.stackList i (fun x => { x with qty := x.qty - q }))
            omega
          · refine ⟨rfl, ?_⟩
            simp only [countPocketsUsed_eq]
            omega

theorem applyInvOp_inv (x : InvState) (op : InvOp)
    (hs : countStorageUsed x.s ≤ x.s.capacity)
    (hp : countPocketsUsed x.p ≤ x.p.capacity)
    (hpc : 0 < x.p.capacity) :
    countStorageUsed (applyInvOp x op).s ≤ (applyInvOp x op).s.capacity ∧
    countPocketsUsed (applyInvOp x op).p ≤ (applyInvOp x op).p.capacity ∧
    (applyInvOp x op).s.capacity = x.s.capacity ∧
    (applyInvOp x op).p.capacity = x.p.capacity := by
  cases op with
  | addStorage i q r =>
    have hspec := addItemToStorage_spec x.s x.ctr i q r
    rcases hadd : addItemToStorage x.s x.ctr i q r with ⟨s2, ctr2, res⟩
    rw [hadd] at hspec
    dsimp only at hspec
    simp only [applyInvOp, hadd]
    cases hok : res.ok with
    | true =>
      rcases hspec.2.1 hok with ⟨heq, hle⟩
      exact ⟨by rw [heq, hspec.1]; exact hle, hp, hspec.1, by trivial⟩
    | false =>
      rcases hspec.2.2.1 hok with ⟨heq, _⟩
      exact ⟨by rw [heq]; exact hs, hp, hspec.1, by trivial⟩
  | removeStorage i q =>
    have hspec := removeItemFromStorage_spec x.s i q
    rcases hrem : removeItemFromStorage x.s i q with ⟨s2, ok⟩
    rw [hrem] at hspec
    dsimp only at hspec
    simp only [applyInvOp, hrem]
    exact ⟨hspec.2.trans (hspec.1 ▸ hs), hp, hspec.1, by trivial⟩
  | addPockets i q =>
    have hspec := addItemToPockets_spec x.p x.ctr i q hpc
    rcases hadd : addItemToPockets x.p x.ctr i q with ⟨p2, ctr2, res⟩
    rw [hadd] at hspec
    dsimp only at hspec
    simp only [applyInvOp, hadd]
    cases hok : res.ok with
    | true =>
      rcases hspec.2.1 hok with ⟨heq, hle⟩
      exact ⟨hs, by rw [heq, hspec.1]; exact hle, by trivial, hspec.1⟩
    | false =>
      rcases hspec.2.2.1 hok with ⟨heq, _⟩
      exact ⟨hs, by rw [heq]; exact hp, by trivial, hspec.1⟩
  | removePockets i q =>
    have hspec := removeItemFromPockets_spec x.p i q
    rcases hrem : removeItemFromPockets x.p i q with ⟨p2, ok⟩
    rw [hrem] at hspec
    dsimp only at hspec
    simp only [applyInvOp, hrem]
    exact ⟨hs, hspec.2.trans (hspec.1 ▸ hp), by trivial, hspec.1⟩

theorem applyInvOps_inv (ops : List InvOp) (x : InvState)
    (hs : countStorageUsed x.s ≤ x.s.capacity)
    (hp : countPocketsUsed x.p ≤ x.p.capacity)
    (hpc : 0 < x.p.capacity) :
    countStorageUsed (applyInvOps x ops).s ≤ (applyInvOps x ops).s.capacity ∧
    countPocketsUsed (applyInvOps x ops).p ≤ (applyInvOps x ops).p.capacity := by
  induction ops generalizing x with
  | nil => exact ⟨hs, hp⟩
  | cons op rest ih =>
    have h := applyInvOp_inv x op hs hp hpc
    have hpc2 : 0 < (applyInvOp x op).p.capacity := by rw [h.2.2.2]; exact hpc
    exact ih (applyInvOp x op) h.1 h.2.1 hpc2

/-- C4: for every sequence of add/remove operations on shared storage and a
character's pockets, `usedUnits ≤ capacity` (stack quantities plus instance
count) holds after every operation when it held initially (every prefix of a
sequence is itself a sequence, so this covers each intermediate state), and an
add that would exceed the capacity is rejected (`ok = false`) with the
container and the uid counter unchanged.  For pockets the source guards the
capacity check with `cap > 0` (zero capacity means unlimited), hence the
`0 < x.p.capacity` hypothesis; every character the game creates has pockets
capacity 6. -/
theorem C4_capacity_invariant (x : InvState) (ops : List InvOp)
    (hs : countStorageUsed x.s ≤ x.s.capacity)
    (hp : countPocketsUsed x.p ≤ x.p.capacity)
    (hpc : 0 < x.p.capacity) :
    (countStorageUsed (applyInvOps x ops).s ≤ (applyInvOps x ops).s.capacity ∧
     countPocketsUsed (applyInvOps x ops).p ≤ (applyInvOps x ops).p.capacity) ∧
    (∀ i q r, x.s.capacity < countStorageUsed x.s + q →
       (addItemToStorage x.s x.ctr i q r).2.2.ok = false ∧
       (addItemToStorage x.s x.ctr i q r).1 = x.s ∧
       (addItemToStorage x.s x.ctr i q r).2.1 = x.ctr) ∧
    (∀ i q, x.p.capacity < countPocketsUsed x.p + q →
       (addItemToPockets x.p x.ctr i q).2.2.ok = false ∧
       (addItemToPockets x.p x.ctr i q).1 = x.p ∧
       (addItemToPockets x.p x.ctr i q).2.1 = x.ctr) := by
  refine ⟨applyInvOps_inv ops x hs hp hpc, ?_, ?_⟩
  · intro i q r hover
    have hspec := addItemToStorage_spec x.s x.ctr i q r
    have hok := hspec.2.2.2 hover
    exact ⟨hok, (hspec.2.2.1 hok).1, (hspec.2.2.1 hok).2⟩
  · intro i q hover
    have hspec := addItemToPockets_spec x.p x.ctr i q hpc
    have hok := hspec.2.2.2 hover
    exact ⟨hok, (hspec.2.2.1 hok).1, (hspec.2.2.1 hok).2⟩

/-- Concrete scenario for the C4 witness: storage capacity 5, pockets
capacity 2, a mix of successful adds and removes plus one rejected
over-capacity add inside the sequence. -/
def c4State : InvState := { s := { capacity := 5 }, p := { capacity := 2 }, ctr := 0 }

def c4Ops : List InvOp :=
  [.addStorage "stone" 3 none, .addPockets "stick" 2, .removeStorage "stone" 1,
   .addStorage "stone" 9 none, .addStorage "scrap_metal" 3 none, .removePockets "stick" 1]

/-- Witness for `C4_capacity_invariant`: the hypotheses hold of `c4State`, the
invariant holds after running `c4Ops`, and a 9-unit add is rejected by both
containers with no effect. -/
theorem C4_capacity_invariant_witness :
    (countStorageUsed c4State.s ≤ c4State.s.capacity) ∧
    (countPocketsUsed c4State.p ≤ c4State.p.capacity) ∧
    (0 < c4State.p.capacity) ∧
    (countStorageUsed (applyInvOps c4State c4Ops).s ≤ (applyInvOps c4State c4Ops).s.capacity ∧
     countPocketsUsed (applyInvOps c4State c4Ops).p ≤ (applyInvOps c4State c4Ops).p.capacity) ∧
    ((addItemToStorage c4State.s c4State.ctr "stone" 9 none).2.2.ok = false ∧
     (addItemToStorage c4State.s c4State.ctr "stone" 9 none).1 = c4State.s ∧
     (addItemToStorage c4State.s c4State.ctr "stone" 9 none).2.1 = c4State.ctr) ∧
    ((addItemToPockets c4State.p c4State.ctr "stone" 9).2.2.ok = false ∧
     (addItemToPockets c4State.p c4State.ctr "stone" 9).1 = c4State.p ∧
     (addItemToPockets c4State.p c4State.ctr "stone" 9).2.1 = c4State.ctr) :=
  have h := C4_capacity_invariant c4State c4Ops (by decide!) (by decide!) (by decide!)
  ⟨by decide!, by decide!, by decide!, h.1,
   h.2.1 "stone" 9 none (by decide!),
   h.2.2 "stone" 9 (by decide!)⟩

end SurviveAll
